import Mathlib

/-!
Verification of the media prioritization/randomization engine
(`RandomizerService` in `src/services/randomizerService.ts`).

The engine is embedded shallowly:

* `MediaFile` keeps exactly the fields the service reads (`id`,
  `view_count`, `last_viewed`, `like_count`); the remaining schema fields
  (paths, sizes, timestamps, …) are never read nor written by the service
  and are omitted as irrelevant payload.
* JavaScript's `Math.random()` stream is modelled by a function
  `g : Nat → Nat` together with a consumption counter `k`; the `j`-th draw
  scaled to `[0, b)` becomes `g k % b`.  Quantifying over all `g` and `k`
  covers every outcome of the randomness source, and every `g`, `k`
  corresponds to a legal outcome.
* `Array.prototype.sort(cmp)` (stable since ES2019) is modelled by
  `List.insertionSort` with the relation `cmp a b ≤ 0`, which is a stable
  sort and hence produces the same list as any stable sort for a
  consistent comparator.
* JavaScript `Map` iterates in key-insertion order; it is modelled by an
  association list with insert-or-append semantics (`insertGroup`).
* Thrown exceptions become `Except String`.
-/

/-- The fields of `MediaFileSchema` that `RandomizerService` reads.
`last_viewed` is `string | null` in the schema, hence `Option String`. -/
structure MediaFile where
  id : Int
  view_count : Int
  last_viewed : Option String
  like_count : Int
deriving Repr, DecidableEq

/-- Output entry of `randomize`: `{ id, idx }` with `idx` an array index. -/
structure RandomizedMedia where
  id : Int
  idx : Nat
deriving Repr, DecidableEq

/-- JavaScript `a || b` on numbers whose only falsy value here is `0`
(the service applies it to integer counts). -/
def jsOr (a b : Int) : Int :=
  if a = 0 then b else a

/-- JavaScript `s.localeCompare(t)` on the ASCII ISO-8601 date strings the
service compares: lexicographic sign. -/
def localeCompare (a b : String) : Int :=
  if a < b then -1 else if b < a then 1 else 0

/-- `compareDates(a, b)`: `null` checks first, then `localeCompare`. -/
def compareDates (a b : Option String) : Int :=
  match a, b with
  | none, none => 0
  | none, some _ => -1
  | some _, none => 1
  | some x, some y => localeCompare x y

/-- `getPrimaryKey(media)` = `media.view_count || media.like_count || 0`. -/
def getPrimaryKey (media : MediaFile) : Int :=
  jsOr (jsOr media.view_count media.like_count) 0

/-- `getSecondaryKey(media)` = `media.last_viewed || "null"` — note that the
empty string is falsy in JavaScript. -/
def getSecondaryKey (media : MediaFile) : String :=
  match media.last_viewed with
  | none => "null"
  | some s => if s = "" then "null" else s

/-- Insert-or-append into a JavaScript `Map<κ, α[]>` viewed as an
association list in key-insertion order:
`if (!m.has(key)) m.set(key, []); m.get(key)!.push(x)`. -/
def insertGroup {κ α : Type} [DecidableEq κ] :
    List (κ × List α) → κ → α → List (κ × List α)
  | [], key, x => [(key, [x])]
  | (k', xs) :: rest, key, x =>
    if k' = key then (k', xs ++ [x]) :: rest
    else (k', xs) :: insertGroup rest key x

/-- Swap the elements at positions `i` and `j` of a list; out-of-range
indices leave the list unchanged (the service never goes out of range). -/
def listSwap {α : Type} (l : List α) (i j : Nat) : List α :=
  match l[i]?, l[j]? with
  | some xi, some xj => (l.set i xj).set j xi
  | _, _ => l

/-- The Fisher–Yates loop of `shuffleRandom`:
`for (let i = result.length - 1; i > 0; i--) swap(result[i], result[j])`
with `j = Math.floor(Math.random() * (i + 1))`.  The first argument of the
recursion is the current loop index `i`; `k` counts consumed draws. -/
def shuffleAux {α : Type} (g : Nat → Nat) : List α → Nat → Nat → List α × Nat
  | l, k, 0 => (l, k)
  | l, k, i + 1 => shuffleAux g (listSwap l (i + 1) (g k % (i + 2))) (k + 1) i

/-- `shuffleRandom(mediaFiles)`: copy, then Fisher–Yates from `length - 1`
down to `1`.  Returns the shuffled list and the new draw counter. -/
def shuffleRandom {α : Type} (g : Nat → Nat) (k : Nat) (l : List α) :
    List α × Nat :=
  shuffleAux g l k (l.length - 1)

/-- `prioritizeUnviewed`: the two filters, each bucket shuffled, unviewed
bucket first. -/
def prioritizeUnviewed (g : Nat → Nat) (k : Nat) (mediaFiles : List MediaFile) :
    List MediaFile × Nat :=
  let unviewed := mediaFiles.filter fun m => m.last_viewed.isNone
  let viewed := mediaFiles.filter fun m => !m.last_viewed.isNone
  let su := shuffleRandom g k unviewed
  let sv := shuffleRandom g su.2 viewed
  (su.1 ++ sv.1, sv.2)

/-- The comparator handed to `[...mediaFiles].sort(...)` in
`sortWithTieBreaker`: primary comparator, secondary on ties. -/
def tieCmp (pCmp sCmp : MediaFile → MediaFile → Int) (a b : MediaFile) : Int :=
  if pCmp a b ≠ 0 then pCmp a b else sCmp a b

/-- The dead first loop of `sortWithTieBreaker`, kept because it performs
the `mediaFiles[0]` access: for each element the key is
`primaryComparator(media, mediaFiles[0]) === 0 ? 0 : media.view_count || media.like_count`.
Reading `mediaFiles[0]` of an empty array would make the comparator throw
on `undefined`; this is modelled by `Except.error`. -/
def deadGroups (pCmp : MediaFile → MediaFile → Int) (mediaFiles : List MediaFile) :
    Except String (List (Int × List MediaFile)) :=
  mediaFiles.foldlM
    (fun m media =>
      match mediaFiles.head? with
      | some first =>
        Except.ok (insertGroup m
          (if pCmp media first = 0 then 0 else jsOr media.view_count media.like_count)
          media)
      | none => Except.error "TypeError: cannot read properties of undefined")
    []

/-- The final-group key string `` `${primaryKey}-${secondaryKey}` ``. -/
def finalKey (media : MediaFile) : String :=
  toString (getPrimaryKey media) ++ "-" ++ getSecondaryKey media

/-- `for (const [_, group] of finalGroups) result.push(...shuffleRandom(group))`,
threading the draw counter through the successive shuffles. -/
def shuffleGroups (g : Nat → Nat) (k : Nat)
    (groups : List (String × List MediaFile)) : List MediaFile × Nat :=
  groups.foldl
    (fun acc kv =>
      let s := shuffleRandom g acc.2 kv.2
      (acc.1 ++ s.1, s.2))
    ([], k)

/-- `sortWithTieBreaker(mediaFiles, primaryComparator, secondaryComparator)`:
dead grouping loop, stable sort by (primary, secondary), regrouping by the
`finalKey` string in a `Map`, then shuffle within each final group. -/
def sortWithTieBreaker (g : Nat → Nat) (pCmp sCmp : MediaFile → MediaFile → Int)
    (k : Nat) (mediaFiles : List MediaFile) :
    Except String (List MediaFile × Nat) := do
  let _groups ← deadGroups pCmp mediaFiles
  let sortedGroups :=
    mediaFiles.insertionSort fun a b => tieCmp pCmp sCmp a b ≤ 0
  let finalGroups :=
    sortedGroups.foldl (fun m media => insertGroup m (finalKey media) media) []
  Except.ok (shuffleGroups g k finalGroups)

/-- `prioritizeLeastViewed`: `view_count` ascending, tie-break
`compareDates` on `last_viewed` ascending. -/
def prioritizeLeastViewed (g : Nat → Nat) (k : Nat)
    (mediaFiles : List MediaFile) : Except String (List MediaFile × Nat) :=
  sortWithTieBreaker g
    (fun a b => a.view_count - b.view_count)
    (fun a b => compareDates a.last_viewed b.last_viewed)
    k mediaFiles

/-- `prioritizeMostLiked`: `like_count` descending, tie-break `view_count`
ascending. -/
def prioritizeMostLiked (g : Nat → Nat) (k : Nat)
    (mediaFiles : List MediaFile) : Except String (List MediaFile × Nat) :=
  sortWithTieBreaker g
    (fun a b => b.like_count - a.like_count)
    (fun a b => a.view_count - b.view_count)
    k mediaFiles

/-- `prioritizeMostViewed`: `view_count` descending, tie-break
`-compareDates` on `last_viewed` (descending). -/
def prioritizeMostViewed (g : Nat → Nat) (k : Nat)
    (mediaFiles : List MediaFile) : Except String (List MediaFile × Nat) :=
  sortWithTieBreaker g
    (fun a b => b.view_count - a.view_count)
    (fun a b => -compareDates a.last_viewed b.last_viewed)
    k mediaFiles

/-- `prioritizeOldestFirst`: never-viewed records shuffled first, then the
viewed records sorted by `compareDates` ascending. -/
def prioritizeOldestFirst (g : Nat → Nat) (k : Nat)
    (mediaFiles : List MediaFile) : List MediaFile × Nat :=
  let neverViewed := mediaFiles.filter fun m => m.last_viewed.isNone
  let viewed := mediaFiles.filter fun m => !m.last_viewed.isNone
  let sortedViewed :=
    viewed.insertionSort fun a b => compareDates a.last_viewed b.last_viewed ≤ 0
  let snv := shuffleRandom g k neverViewed
  (snv.1 ++ sortedViewed, snv.2)

/-- The closed set of names accepted by the `switch` in `randomize`. -/
def recognizedAlgorithms : List String :=
  ["random", "unviewed_first", "least_viewed", "most_liked", "most_viewed",
   "oldest_first"]

/-- The `switch (algorithm)` dispatch of `randomize`; the `default` branch
throws `Unknown prioritization algorithm: ${algorithm}`. -/
def applyAlgorithm (g : Nat → Nat) (k : Nat) (algorithm : String)
    (filteredMedia : List MediaFile) : Except String (List MediaFile × Nat) :=
  if algorithm = "random" then Except.ok (shuffleRandom g k filteredMedia)
  else if algorithm = "unviewed_first" then
    Except.ok (prioritizeUnviewed g k filteredMedia)
  else if algorithm = "least_viewed" then
    prioritizeLeastViewed g k filteredMedia
  else if algorithm = "most_liked" then
    prioritizeMostLiked g k filteredMedia
  else if algorithm = "most_viewed" then
    prioritizeMostViewed g k filteredMedia
  else if algorithm = "oldest_first" then
    Except.ok (prioritizeOldestFirst g k filteredMedia)
  else Except.error ("Unknown prioritization algorithm: " ++ algorithm)

/-- `sortedMedia.map((media, idx) => ({ id: media.id, idx }))`, with the
starting index made explicit for the proofs. -/
def toRanked : List MediaFile → Nat → List RandomizedMedia
  | [], _ => []
  | m :: rest, i => ⟨m.id, i⟩ :: toRanked rest (i + 1)

/-- The dislike filter of `randomize`: `media.like_count >= 0` when
`excludeDisliked`, otherwise the spread copy `[...mediaFiles]`. -/
def filterDisliked (excludeDisliked : Bool) (mediaFiles : List MediaFile) :
    List MediaFile :=
  if excludeDisliked then mediaFiles.filter fun m => 0 ≤ m.like_count
  else mediaFiles

/-- `RandomizerService.randomize(mediaFiles, algorithm, excludeDisliked)`:
dislike filter, empty early return, algorithm dispatch, index mapping.
The surrounding `try/catch` rethrows and is semantically transparent. -/
def randomize (g : Nat → Nat) (k : Nat) (mediaFiles : List MediaFile)
    (algorithm : String := "random") (excludeDisliked : Bool := true) :
    Except String (List RandomizedMedia) :=
  let filteredMedia := filterDisliked excludeDisliked mediaFiles
  if filteredMedia.length = 0 then Except.ok []
  else do
    let sorted ← applyAlgorithm g k algorithm filteredMedia
    Except.ok (toRanked sorted.1 0)

/-!
### Heap-level embedding

The frame claim ("`randomize` never mutates its inputs") is about JavaScript
array identity, so the arrays of `MediaFile` manipulated by the service are
re-embedded with an explicit store: a `Heap` of array cells addressed by
`Nat` references.  `filter` and the spread `[...a]` allocate fresh cells;
the two in-place operations of the source — the swap inside
`shuffleRandom`'s loop and `.sort()` (on the fresh copy in
`sortWithTieBreaker`, on the fresh `viewed` filter result in
`prioritizeOldestFirst`) — become `Heap.write` on the cell they target.
Record objects are embedded as immutable values because the source contains
no assignment to any record field.  The `Map`s of `sortWithTieBreaker` hold
arrays that are only ever read (spread into `shuffleRandom`'s copy), so
their contents stay value-level.
-/

/-- A store of JavaScript arrays of media records. -/
structure Heap where
  cells : List (List MediaFile)

/-- Dereference an array. -/
def Heap.read (h : Heap) (r : Nat) : List MediaFile :=
  h.cells.getD r []

/-- Allocate a fresh array (`filter`, spread, or array literal). -/
def Heap.alloc (h : Heap) (v : List MediaFile) : Nat × Heap :=
  (h.cells.length, ⟨h.cells ++ [v]⟩)

/-- Overwrite an array cell in place (element swap, `.sort()`, `.push`). -/
def Heap.write (h : Heap) (r : Nat) (v : List MediaFile) : Heap :=
  ⟨h.cells.set r v⟩

/-- The Fisher–Yates loop acting in place on the array cell `r`. -/
def fyLoopH (g : Nat → Nat) (r : Nat) : Heap → Nat → Nat → Heap × Nat
  | h, k, 0 => (h, k)
  | h, k, i + 1 =>
    fyLoopH g r (h.write r (listSwap (h.read r) (i + 1) (g k % (i + 2))))
      (k + 1) i

/-- Heap-level `shuffleRandom` on an array value: allocate the copy
`[...mediaFiles]`, then swap in place on the copy. -/
def shuffleRandomHV (g : Nat → Nat) (h : Heap) (v : List MediaFile) (k : Nat) :
    Nat × Heap × Nat :=
  let a := h.alloc v
  let fy := fyLoopH g a.1 a.2 k (v.length - 1)
  (a.1, fy.1, fy.2)

/-- Heap-level `prioritizeUnviewed`: two fresh filter results, each
shuffled (onto fresh copies), concatenated into a fresh result array. -/
def prioritizeUnviewedH (g : Nat → Nat) (h : Heap) (src : Nat) (k : Nat) :
    Nat × Heap × Nat :=
  let u := h.alloc ((h.read src).filter fun m => m.last_viewed.isNone)
  let v := u.2.alloc ((u.2.read src).filter fun m => !m.last_viewed.isNone)
  let su := shuffleRandomHV g v.2 (v.2.read u.1) k
  let sv := shuffleRandomHV g su.2.1 (su.2.1.read v.1) su.2.2
  let out := sv.2.1.alloc (sv.2.1.read su.1 ++ sv.2.1.read sv.1)
  (out.1, out.2, sv.2.2)

/-- Heap-level `sortWithTieBreaker`: the copy `[...mediaFiles]` is
allocated, sorted in place, regrouped, and the groups are shuffled and
pushed onto the fresh `result` array. -/
def sortWithTieBreakerH (g : Nat → Nat)
    (pCmp sCmp : MediaFile → MediaFile → Int) (h : Heap) (src : Nat)
    (k : Nat) : Except String (Nat × Heap × Nat) := do
  let _groups ← deadGroups pCmp (h.read src)
  let s := h.alloc (h.read src)
  let h1 := s.2.write s.1
    ((s.2.read s.1).insertionSort fun a b => tieCmp pCmp sCmp a b ≤ 0)
  let finalGroups := (h1.read s.1).foldl
    (fun m media => insertGroup m (finalKey media) media) []
  let res := h1.alloc []
  let fin := finalGroups.foldl
    (fun (st : Heap × Nat) kv =>
      let sh := shuffleRandomHV g st.1 kv.2 st.2
      (sh.2.1.write res.1 (sh.2.1.read res.1 ++ sh.2.1.read sh.1), sh.2.2))
    (res.2, k)
  Except.ok (res.1, fin.1, fin.2)

/-- Heap-level `prioritizeOldestFirst`: the fresh `viewed` filter result is
sorted in place, the never-viewed bucket is shuffled, and the two are
concatenated into a fresh result array. -/
def prioritizeOldestFirstH (g : Nat → Nat) (h : Heap) (src : Nat) (k : Nat) :
    Nat × Heap × Nat :=
  let n := h.alloc ((h.read src).filter fun m => m.last_viewed.isNone)
  let v := n.2.alloc ((n.2.read src).filter fun m => !m.last_viewed.isNone)
  let h1 := v.2.write v.1
    ((v.2.read v.1).insertionSort fun a b =>
      compareDates a.last_viewed b.last_viewed ≤ 0)
  let snv := shuffleRandomHV g h1 (h1.read n.1) k
  let out := snv.2.1.alloc (snv.2.1.read snv.1 ++ snv.2.1.read v.1)
  (out.1, out.2, snv.2.2)

/-- Heap-level algorithm dispatch. -/
def applyAlgorithmH (g : Nat → Nat) (algorithm : String) (h : Heap)
    (src : Nat) (k : Nat) : Except String (Nat × Heap × Nat) :=
  if algorithm = "random" then
    Except.ok (shuffleRandomHV g h (h.read src) k)
  else if algorithm = "unviewed_first" then
    Except.ok (prioritizeUnviewedH g h src k)
  else if algorithm = "least_viewed" then
    sortWithTieBreakerH g
      (fun a b => a.view_count - b.view_count)
      (fun a b => compareDates a.last_viewed b.last_viewed) h src k
  else if algorithm = "most_liked" then
    sortWithTieBreakerH g
      (fun a b => b.like_count - a.like_count)
      (fun a b => a.view_count - b.view_count) h src k
  else if algorithm = "most_viewed" then
    sortWithTieBreakerH g
      (fun a b => b.view_count - a.view_count)
      (fun a b => -compareDates a.last_viewed b.last_viewed) h src k
  else if algorithm = "oldest_first" then
    Except.ok (prioritizeOldestFirstH g h src k)
  else Except.error ("Unknown prioritization algorithm: " ++ algorithm)

/-- Heap-level `randomize`: the caller's array is dereferenced once (by the
dislike filter or the spread copy, both of which allocate a fresh cell);
everything downstream operates on fresh cells.  The final heap is returned
alongside the result so the caller's cells can be inspected after the
call. -/
def randomizeH (g : Nat → Nat) (k : Nat) (h : Heap) (inputRef : Nat)
    (algorithm : String) (excludeDisliked : Bool) :
    Except String (List RandomizedMedia) × Heap :=
  let filtered := filterDisliked excludeDisliked (h.read inputRef)
  let f := h.alloc filtered
  if filtered.length = 0 then (Except.ok [], f.2)
  else
    match applyAlgorithmH g algorithm f.2 f.1 k with
    | Except.error e => (Except.error e, f.2)
    | Except.ok res => (Except.ok (toRanked (res.2.1.read res.1) 0), res.2.1)

/-- `h'` still has the first `n` cells of `h`, with identical contents. -/
def heapFrameOn (h h' : Heap) (n : Nat) : Prop :=
  n ≤ h'.cells.length ∧ ∀ q, q < n → h'.read q = h.read q

/-! ### Permutation lemmas for the randomness primitive -/

/-- Replacing position `m` (which holds `y`) by `a` and re-consing `y` is a
permutation of consing `a`. -/
theorem cons_set_perm {α : Type} (a y : α) :
    ∀ (t : List α) (m : Nat), t[m]? = some y →
      List.Perm (y :: t.set m a) (a :: t)
  | [], m, h => by simp at h
  | b :: t', 0, h => by
    have hb : b = y := by simpa using h
    rw [← hb]
    exact List.Perm.swap a b t'
  | b :: t', m + 1, h => by
    simp at h
    have ih := cons_set_perm a y t' m h
    exact (List.Perm.swap b y _).trans ((ih.cons b).trans (List.Perm.swap a b t'))

/-- `listSwap` permutes the list. -/
theorem listSwap_perm {α : Type} :
    ∀ (l : List α) (i j : Nat), List.Perm (listSwap l i j) l
  | [], i, j => by simp [listSwap]
  | a :: t, 0, 0 => by simp [listSwap]
  | a :: t, 0, j + 1 => by
    match h : t[j]? with
    | none => simp [listSwap, h]
    | some y =>
      have : listSwap (a :: t) 0 (j + 1) = y :: t.set j a := by
        simp [listSwap, h]
      rw [this]
      exact cons_set_perm a y t j h
  | a :: t, i + 1, 0 => by
    match h : t[i]? with
    | none => simp [listSwap, h]
    | some x =>
      have : listSwap (a :: t) (i + 1) 0 = x :: t.set i a := by
        simp [listSwap, h]
      rw [this]
      exact cons_set_perm a x t i h
  | a :: t, i + 1, j + 1 => by
    match h1 : t[i]?, h2 : t[j]? with
    | none, _ => simp [listSwap, h1]
    | some xi, none => simp [listSwap, h1, h2]
    | some xi, some xj =>
      have : listSwap (a :: t) (i + 1) (j + 1) = a :: listSwap t i j := by
        simp [listSwap, h1, h2]
      rw [this]
      exact (listSwap_perm t i j).cons a

/-- The Fisher–Yates loop permutes the list. -/
theorem shuffleAux_perm {α : Type} (g : Nat → Nat) :
    ∀ (i : Nat) (l : List α) (k : Nat), List.Perm (shuffleAux g l k i).1 l := by
  intro i
  induction i with
  | zero => intro l k; exact List.Perm.refl l
  | succ n ih =>
    intro l k
    exact (ih _ _).trans (listSwap_perm l (n + 1) (g k % (n + 2)))

/-- `shuffleRandom` permutes the list, for every randomness outcome. -/
theorem shuffleRandom_perm {α : Type} (g : Nat → Nat) (k : Nat) (l : List α) :
    List.Perm (shuffleRandom g k l).1 l :=
  shuffleAux_perm g (l.length - 1) l k

/-! ### Permutation lemmas for the grouping map -/

/-- Inserting into the grouping map adds exactly the inserted element to the
flattened contents. -/
theorem insertGroup_flatten_perm {κ α : Type} [DecidableEq κ] (key : κ) (x : α) :
    ∀ m : List (κ × List α),
      List.Perm ((insertGroup m key x).map Prod.snd).flatten
        (x :: (m.map Prod.snd).flatten)
  | [] => by simp [insertGroup]
  | (k', xs) :: rest => by
    by_cases hk : k' = key
    · simp only [insertGroup, if_pos hk, List.map_cons, List.flatten_cons]
      rw [List.append_assoc]
      exact List.perm_middle
    · simp only [insertGroup, if_neg hk, List.map_cons, List.flatten_cons]
      have ih := insertGroup_flatten_perm key x rest
      exact (ih.append_left xs).trans List.perm_middle

/-- Folding `insertGroup` over a list leaves the flattened contents a
permutation of the accumulator contents followed by the list. -/
theorem foldl_insertGroup_perm {κ α : Type} [DecidableEq κ] (f : α → κ) :
    ∀ (l : List α) (acc : List (κ × List α)),
      List.Perm
        (((l.foldl (fun m e => insertGroup m (f e) e) acc).map Prod.snd).flatten)
        ((acc.map Prod.snd).flatten ++ l)
  | [], acc => by simp
  | e :: rest, acc => by
    have ih := foldl_insertGroup_perm f rest (insertGroup acc (f e) e)
    have hins := insertGroup_flatten_perm (f e) e acc
    exact ih.trans ((hins.append_right rest).trans List.perm_middle.symm)

/-- The shuffle-and-concatenate loop over the final groups produces a
permutation of the groups' flattened contents. -/
theorem shuffleGroups_aux_perm (g : Nat → Nat) :
    ∀ (groups : List (String × List MediaFile)) (acc : List MediaFile) (k : Nat),
      List.Perm
        (groups.foldl
          (fun a kv =>
            let s := shuffleRandom g a.2 kv.2
            (a.1 ++ s.1, s.2)) (acc, k)).1
        (acc ++ (groups.map Prod.snd).flatten)
  | [], acc, k => by simp
  | (key, grp) :: rest, acc, k => by
    have ih := shuffleGroups_aux_perm g rest (acc ++ (shuffleRandom g k grp).1)
      (shuffleRandom g k grp).2
    refine ih.trans ?_
    rw [List.map_cons, List.flatten_cons, List.append_assoc]
    exact ((shuffleRandom_perm g k grp).append_right _).append_left acc

/-- `shuffleGroups` permutes the flattened group contents. -/
theorem shuffleGroups_perm (g : Nat → Nat) (k : Nat)
    (groups : List (String × List MediaFile)) :
    List.Perm (shuffleGroups g k groups).1 ((groups.map Prod.snd).flatten) := by
  have h := shuffleGroups_aux_perm g groups [] k
  simpa [shuffleGroups] using h

/-! ### The dead grouping loop never throws -/

/-- A `foldlM` over `Except` whose body always succeeds is a pure `foldl`. -/
theorem foldlM_ok {ε σ α : Type} (s : σ → α → σ) :
    ∀ (l : List α) (init : σ),
      List.foldlM (m := Except ε) (fun acc x => Except.ok (s acc x)) init l
        = Except.ok (l.foldl s init)
  | [], init => rfl
  | x :: xs, init => by
    simp only [List.foldlM_cons, List.foldl_cons]
    rw [show ((Except.ok (s init x) : Except ε σ) >>= fun b =>
        List.foldlM (fun acc x => Except.ok (s acc x)) b xs)
        = List.foldlM (fun acc x => Except.ok (s acc x)) (s init x) xs from rfl]
    exact foldlM_ok s xs (s init x)

/-- The first loop of `sortWithTieBreaker` always succeeds: its
`mediaFiles[0]` access happens inside the loop body, which only runs when
the list is non-empty. -/
theorem deadGroups_ok (pCmp : MediaFile → MediaFile → Int) :
    ∀ l : List MediaFile, ∃ v, deadGroups pCmp l = Except.ok v
  | [] => ⟨[], rfl⟩
  | a :: t => by
    refine ⟨(a :: t).foldl
      (fun m media => insertGroup m
        (if pCmp media a = 0 then 0 else jsOr media.view_count media.like_count)
        media) [], ?_⟩
    have : deadGroups pCmp (a :: t)
        = List.foldlM (m := Except String)
          (fun m media => Except.ok (insertGroup m
            (if pCmp media a = 0 then 0
             else jsOr media.view_count media.like_count) media))
          [] (a :: t) := rfl
    rw [this, foldlM_ok]

/-- `sortWithTieBreaker` never throws, and its value is the shuffle of the
final groups of the stable sort. -/
theorem sortWithTieBreaker_eq (g : Nat → Nat)
    (pCmp sCmp : MediaFile → MediaFile → Int) (k : Nat) (l : List MediaFile) :
    sortWithTieBreaker g pCmp sCmp k l
      = Except.ok (shuffleGroups g k
          ((l.insertionSort fun a b => tieCmp pCmp sCmp a b ≤ 0).foldl
            (fun m media => insertGroup m (finalKey media) media) [])) := by
  obtain ⟨v, hv⟩ := deadGroups_ok pCmp l
  unfold sortWithTieBreaker
  rw [hv]
  rfl

/-- The list produced by `sortWithTieBreaker` is a permutation of its
input, for every randomness outcome. -/
theorem sortWithTieBreaker_perm (g : Nat → Nat)
    (pCmp sCmp : MediaFile → MediaFile → Int) (k : Nat) (l : List MediaFile)
    (r : List MediaFile × Nat)
    (h : sortWithTieBreaker g pCmp sCmp k l = Except.ok r) :
    List.Perm r.1 l := by
  rw [sortWithTieBreaker_eq] at h
  cases h
  refine (shuffleGroups_perm g k _).trans ?_
  refine ((foldl_insertGroup_perm finalKey _ []).trans ?_)
  simpa using List.perm_insertionSort _ _

/-! ### Strategy-level permutation lemmas -/

/-- The two complementary filters of a partition concatenate to a
permutation of the original list. -/
theorem filter_not_filter_perm {α : Type} (p : α → Bool) :
    ∀ l : List α,
      List.Perm (l.filter p ++ l.filter fun a => !p a) l
  | [] => by simp
  | a :: t => by
    by_cases h : p a
    · simpa [List.filter_cons, h] using (filter_not_filter_perm p t).cons a
    · simp only [List.filter_cons, h]
      simpa [h] using
        (List.perm_middle.trans ((filter_not_filter_perm p t).cons a))

/-- `prioritizeUnviewed` permutes its input. -/
theorem prioritizeUnviewed_perm (g : Nat → Nat) (k : Nat)
    (l : List MediaFile) : List.Perm (prioritizeUnviewed g k l).1 l := by
  unfold prioritizeUnviewed
  exact ((shuffleRandom_perm g k _).append (shuffleRandom_perm g _ _)).trans
    (filter_not_filter_perm _ l)

/-- `prioritizeOldestFirst` permutes its input. -/
theorem prioritizeOldestFirst_perm (g : Nat → Nat) (k : Nat)
    (l : List MediaFile) : List.Perm (prioritizeOldestFirst g k l).1 l := by
  unfold prioritizeOldestFirst
  exact ((shuffleRandom_perm g k _).append
    (List.perm_insertionSort _ _)).trans (filter_not_filter_perm _ l)

/-- Every successful `applyAlgorithm` result is a permutation of the
filtered input, whatever the algorithm string and randomness outcome. -/
theorem applyAlgorithm_perm (g : Nat → Nat) (k : Nat) (alg : String)
    (l : List MediaFile) (r : List MediaFile × Nat)
    (h : applyAlgorithm g k alg l = Except.ok r) : List.Perm r.1 l := by
  unfold applyAlgorithm at h
  split_ifs at h
  · cases h; exact shuffleRandom_perm g k l
  · cases h; exact prioritizeUnviewed_perm g k l
  · exact sortWithTieBreaker_perm g _ _ k l r h
  · exact sortWithTieBreaker_perm g _ _ k l r h
  · exact sortWithTieBreaker_perm g _ _ k l r h
  · cases h; exact prioritizeOldestFirst_perm g k l

/-- Every recognized algorithm succeeds on every input and every
randomness outcome. -/
theorem applyAlgorithm_ok (g : Nat → Nat) (k : Nat) (alg : String)
    (l : List MediaFile) (h : alg ∈ recognizedAlgorithms) :
    ∃ r, applyAlgorithm g k alg l = Except.ok r := by
  simp only [recognizedAlgorithms, List.mem_cons, List.mem_singleton,
    List.not_mem_nil, or_false] at h
  rcases h with h | h | h | h | h | h <;> subst h <;> unfold applyAlgorithm
  · exact ⟨_, rfl⟩
  · exact ⟨_, rfl⟩
  · exact ⟨_, by rw [if_neg (by decide), if_neg (by decide), if_pos rfl,
      prioritizeLeastViewed, sortWithTieBreaker_eq]⟩
  · exact ⟨_, by rw [if_neg (by decide), if_neg (by decide), if_neg (by decide),
      if_pos rfl, prioritizeMostLiked, sortWithTieBreaker_eq]⟩
  · exact ⟨_, by rw [if_neg (by decide), if_neg (by decide), if_neg (by decide),
      if_neg (by decide), if_pos rfl, prioritizeMostViewed, sortWithTieBreaker_eq]⟩
  · exact ⟨_, rfl⟩

/-! ### The index mapping -/

/-- `toRanked` preserves length. -/
theorem toRanked_length : ∀ (l : List MediaFile) (i : Nat),
    (toRanked l i).length = l.length
  | [], _ => rfl
  | _ :: rest, i => by simp [toRanked, toRanked_length rest (i + 1)]

/-- The `idx` fields of `toRanked l i` are `i, i+1, …` in order. -/
theorem toRanked_map_idx : ∀ (l : List MediaFile) (i : Nat),
    (toRanked l i).map RandomizedMedia.idx = List.range' i l.length
  | [], _ => rfl
  | m :: rest, i => by
    simp [toRanked, List.range'_succ, toRanked_map_idx rest (i + 1)]

/-- The `id` fields of `toRanked l i` are the `id` fields of `l` in order. -/
theorem toRanked_map_id : ∀ (l : List MediaFile) (i : Nat),
    (toRanked l i).map RandomizedMedia.id = l.map MediaFile.id
  | [], _ => rfl
  | m :: rest, i => by simp [toRanked, toRanked_map_id rest (i + 1)]

/-! ### Shape of `randomize` results -/

/-- When the dislike filter leaves nothing, `randomize` returns `ok []`
whatever the algorithm string — recognized or not. -/
theorem randomize_of_filter_nil (g : Nat → Nat) (k : Nat)
    (mediaFiles : List MediaFile) (alg : String) (ex : Bool)
    (h : filterDisliked ex mediaFiles = []) :
    randomize g k mediaFiles alg ex = Except.ok [] := by
  unfold randomize
  rw [h]
  rfl

/-- When the dislike filter leaves something, `randomize` is the dispatch
followed by the index mapping. -/
theorem randomize_of_filter_ne_nil (g : Nat → Nat) (k : Nat)
    (mediaFiles : List MediaFile) (alg : String) (ex : Bool)
    (h : filterDisliked ex mediaFiles ≠ []) :
    randomize g k mediaFiles alg ex
      = (applyAlgorithm g k alg (filterDisliked ex mediaFiles)).bind
          (fun sorted => Except.ok (toRanked sorted.1 0)) := by
  unfold randomize
  rw [if_neg (by simpa [List.length_eq_zero] using h)]
  rfl

/-- Anatomy of a successful `randomize` call: either the filter emptied
the input and the result is `[]`, or the dispatched strategy succeeded and
the result is its output indexed from `0`. -/
theorem randomize_shape (g : Nat → Nat) (k : Nat) (mediaFiles : List MediaFile)
    (alg : String) (ex : Bool) (out : List RandomizedMedia)
    (h : randomize g k mediaFiles alg ex = Except.ok out) :
    (filterDisliked ex mediaFiles = [] ∧ out = []) ∨
    ∃ r, applyAlgorithm g k alg (filterDisliked ex mediaFiles) = Except.ok r ∧
      out = toRanked r.1 0 := by
  by_cases hnil : filterDisliked ex mediaFiles = []
  · left
    refine ⟨hnil, ?_⟩
    rw [randomize_of_filter_nil g k mediaFiles alg ex hnil] at h
    cases h
    rfl
  · right
    rw [randomize_of_filter_ne_nil g k mediaFiles alg ex hnil] at h
    cases happ : applyAlgorithm g k alg (filterDisliked ex mediaFiles) with
    | error e => rw [happ] at h; cases h
    | ok r =>
      rw [happ] at h
      refine ⟨r, rfl, ?_⟩
      cases h
      rfl

/-- The `id` fields of a successful `randomize` output are a permutation
of the `id`s of the filtered input. -/
theorem randomize_ids_perm (g : Nat → Nat) (k : Nat)
    (mediaFiles : List MediaFile) (alg : String) (ex : Bool)
    (out : List RandomizedMedia)
    (h : randomize g k mediaFiles alg ex = Except.ok out) :
    List.Perm (out.map RandomizedMedia.id)
      ((filterDisliked ex mediaFiles).map MediaFile.id) := by
  rcases randomize_shape g k mediaFiles alg ex out h with ⟨hnil, hout⟩ | ⟨r, hr, hout⟩
  · rw [hnil, hout]
    exact List.Perm.refl _
  · rw [hout, toRanked_map_id]
    exact (applyAlgorithm_perm g k alg _ r hr).map MediaFile.id

/-! ### Partition structure of the two bucket strategies -/

/-- Members of `prioritizeUnviewed`'s first bucket are never-viewed, of the
second bucket viewed. -/
theorem prioritizeUnviewed_partition (g : Nat → Nat) (k : Nat)
    (l : List MediaFile) :
    ∃ A B, (prioritizeUnviewed g k l).1 = A ++ B ∧
      (∀ a ∈ A, a.last_viewed = none) ∧ (∀ b ∈ B, b.last_viewed ≠ none) := by
  refine ⟨_, _, rfl, ?_, ?_⟩
  · intro a ha
    have := (shuffleRandom_perm g k (l.filter fun m => m.last_viewed.isNone)).mem_iff.mp ha
    have := (List.mem_filter.mp this).2
    simpa [Option.isNone_iff_eq_none] using this
  · intro b hb
    have := (shuffleRandom_perm g _ (l.filter fun m => !m.last_viewed.isNone)).mem_iff.mp hb
    have := (List.mem_filter.mp this).2
    have hsome : b.last_viewed.isSome = true := by simpa using this
    exact Option.isSome_iff_ne_none.mp hsome

/-- Members of `prioritizeOldestFirst`'s first bucket are never-viewed, of
the sorted tail viewed. -/
theorem prioritizeOldestFirst_partition (g : Nat → Nat) (k : Nat)
    (l : List MediaFile) :
    ∃ A B, (prioritizeOldestFirst g k l).1 = A ++ B ∧
      (∀ a ∈ A, a.last_viewed = none) ∧ (∀ b ∈ B, b.last_viewed ≠ none) := by
  refine ⟨_, _, rfl, ?_, ?_⟩
  · intro a ha
    have := (shuffleRandom_perm g k (l.filter fun m => m.last_viewed.isNone)).mem_iff.mp ha
    have := (List.mem_filter.mp this).2
    simpa [Option.isNone_iff_eq_none] using this
  · intro b hb
    have := (List.perm_insertionSort
      (fun a b => compareDates a.last_viewed b.last_viewed ≤ 0)
      (l.filter fun m => !m.last_viewed.isNone)).mem_iff.mp hb
    have := (List.mem_filter.mp this).2
    have hsome : b.last_viewed.isSome = true := by simpa using this
    exact Option.isSome_iff_ne_none.mp hsome

/-- In a concatenation whose first block is all-`none` and second block is
all-`some`, every `none` position is strictly left of every `some`
position. -/
theorem partition_index {A B : List MediaFile}
    (hA : ∀ a ∈ A, a.last_viewed = none) (hB : ∀ b ∈ B, b.last_viewed ≠ none) :
    ∀ (i j : Nat) (hi : i < (A ++ B).length) (hj : j < (A ++ B).length),
      ((A ++ B)[i]).last_viewed = none →
      ((A ++ B)[j]).last_viewed ≠ none → i < j := by
  intro i j hi hj hnull hsome
  have hiA : i < A.length := by
    by_contra hge
    push_neg at hge
    have hmem : (A ++ B)[i] ∈ B := by
      rw [List.getElem_append_right hge]
      exact List.getElem_mem _
    exact hB _ hmem hnull
  have hjA : A.length ≤ j := by
    by_contra hlt
    push_neg at hlt
    have hmem : (A ++ B)[j] ∈ A := by
      rw [List.getElem_append_left hlt]
      exact List.getElem_mem _
    exact hsome (hA _ hmem)
  omega

/-- The dislike filter produces a sublist of the input. -/
theorem filterDisliked_sublist (ex : Bool) (l : List MediaFile) :
    List.Sublist (filterDisliked ex l) l := by
  cases ex
  · exact List.Sublist.refl l
  · exact List.filter_sublist l

/-! ### The claims -/

/-- C1: for every input list, recognized strategy, `excludeDisliked` flag
and randomness outcome, `randomize` succeeds; the output has the filtered
input's length, its `idx` fields are exactly `0..n-1` in array order, its
`id` fields are a permutation of the filtered input's `id` fields (hence
the same set, with no additions and no omissions), and distinct input
`id`s stay distinct in the output. -/
theorem C1_randomize_permutation (g : Nat → Nat) (k : Nat)
    (mediaFiles : List MediaFile) (alg : String) (ex : Bool)
    (halg : alg ∈ recognizedAlgorithms) :
    ∃ out, randomize g k mediaFiles alg ex = Except.ok out ∧
      out.length = (filterDisliked ex mediaFiles).length ∧
      out.map RandomizedMedia.idx = List.range out.length ∧
      List.Perm (out.map RandomizedMedia.id)
        ((filterDisliked ex mediaFiles).map MediaFile.id) ∧
      ((mediaFiles.map MediaFile.id).Nodup → (out.map RandomizedMedia.id).Nodup) := by
  by_cases hnil : filterDisliked ex mediaFiles = []
  · refine ⟨[], randomize_of_filter_nil g k mediaFiles alg ex hnil, ?_, ?_, ?_, ?_⟩
    · rw [hnil]; rfl
    · rfl
    · rw [hnil]; exact List.Perm.refl _
    · intro _; simp
  · obtain ⟨r, hr⟩ := applyAlgorithm_ok g k alg (filterDisliked ex mediaFiles) halg
    have hperm := applyAlgorithm_perm g k alg (filterDisliked ex mediaFiles) r hr
    refine ⟨toRanked r.1 0, ?_, ?_, ?_, ?_, ?_⟩
    · rw [randomize_of_filter_ne_nil g k mediaFiles alg ex hnil, hr]
      rfl
    · rw [toRanked_length]
      exact hperm.length_eq
    · rw [toRanked_map_idx, toRanked_length, List.range_eq_range']
    · rw [toRanked_map_id]
      exact hperm.map MediaFile.id
    · intro hnodup
      have hfnodup : ((filterDisliked ex mediaFiles).map MediaFile.id).Nodup :=
        hnodup.sublist ((filterDisliked_sublist ex mediaFiles).map MediaFile.id)
      rw [toRanked_map_id]
      exact ((hperm.map MediaFile.id).nodup_iff).mpr hfnodup

/-- Witness for C1 at a concrete input. -/
theorem C1_randomize_permutation_witness :
    ∃ out, randomize (fun _ => 0) 0
        [⟨1, 2, none, 3⟩, ⟨2, 0, some "2024-02-02", 0⟩] "random" true
        = Except.ok out ∧
      out.length = (filterDisliked true
        [⟨1, 2, none, 3⟩, ⟨2, 0, some "2024-02-02", 0⟩]).length ∧
      out.map RandomizedMedia.idx = List.range out.length ∧
      List.Perm (out.map RandomizedMedia.id)
        ((filterDisliked true
          [⟨1, 2, none, 3⟩, ⟨2, 0, some "2024-02-02", 0⟩]).map MediaFile.id) ∧
      (([⟨1, 2, none, 3⟩, ⟨2, 0, some "2024-02-02", 0⟩].map MediaFile.id).Nodup →
        (out.map RandomizedMedia.id).Nodup) :=
  C1_randomize_permutation (fun _ => 0) 0
    [⟨1, 2, none, 3⟩, ⟨2, 0, some "2024-02-02", 0⟩] "random" true (by decide)

/-- C3: with `excludeDisliked = true` no output entry carries the `id` of a
disliked record (given the data-model invariant that `id`s are unique);
with `excludeDisliked = false` every input record's `id` appears. -/
theorem C3_exclusion_invariant (g : Nat → Nat) (k : Nat)
    (mediaFiles : List MediaFile) (alg : String) (out : List RandomizedMedia) :
    (randomize g k mediaFiles alg true = Except.ok out →
      (mediaFiles.map MediaFile.id).Nodup →
      ∀ e ∈ out, ∀ m ∈ mediaFiles, m.id = e.id → 0 ≤ m.like_count) ∧
    (randomize g k mediaFiles alg false = Except.ok out →
      ∀ m ∈ mediaFiles, ∃ e ∈ out, e.id = m.id) := by
  constructor
  · intro h hnodup e he m hm hid
    have hperm := randomize_ids_perm g k mediaFiles alg true out h
    have hemem : e.id ∈ (filterDisliked true mediaFiles).map MediaFile.id :=
      hperm.mem_iff.mp (List.mem_map_of_mem RandomizedMedia.id he)
    obtain ⟨m', hm', hmid⟩ := List.mem_map.mp hemem
    have hm'filter : m' ∈ mediaFiles.filter (fun m => 0 ≤ m.like_count) := by
      simpa [filterDisliked] using hm'
    have hm'mem : m' ∈ mediaFiles := (List.mem_filter.mp hm'filter).1
    have hm'like : 0 ≤ m'.like_count :=
      of_decide_eq_true (List.mem_filter.mp hm'filter).2
    have : m = m' :=
      List.inj_on_of_nodup_map hnodup hm hm'mem (by rw [hid, ← hmid])
    rw [this]
    exact hm'like
  · intro h m hm
    have hperm := randomize_ids_perm g k mediaFiles alg false out h
    have hmm : m.id ∈ (filterDisliked false mediaFiles).map MediaFile.id := by
      simpa [filterDisliked] using List.mem_map_of_mem MediaFile.id hm
    obtain ⟨e, he, heid⟩ := List.mem_map.mp (hperm.mem_iff.mpr hmm)
    exact ⟨e, he, heid⟩

/-- Witness for C3: the spec's own example — ids 1, 3 are disliked and the
only survivor, id 2, heads the `most_liked` output. -/
theorem C3_exclusion_invariant_witness :
    randomize (fun _ => 0) 0
        [⟨1, 0, none, -100⟩, ⟨2, 0, none, 5⟩, ⟨3, 0, none, -50⟩]
        "most_liked" true = Except.ok [⟨2, 0⟩] ∧
    (∀ e ∈ ([⟨2, 0⟩] : List RandomizedMedia),
      ∀ m ∈ ([⟨1, 0, none, -100⟩, ⟨2, 0, none, 5⟩, ⟨3, 0, none, -50⟩] :
          List MediaFile),
        m.id = e.id → 0 ≤ m.like_count) :=
  ⟨by rfl,
   (C3_exclusion_invariant (fun _ => 0) 0
      [⟨1, 0, none, -100⟩, ⟨2, 0, none, 5⟩, ⟨3, 0, none, -50⟩]
      "most_liked" [⟨2, 0⟩]).1 (by rfl) (by decide)⟩

/-- C6: the spec's `least_viewed` example returns ids `[4, 2, 1, 3]` with
`idx` `0..3`, for every outcome of the randomness source. -/
theorem C6_least_viewed_example (g : Nat → Nat) (k : Nat) :
    randomize g k
        [⟨1, 5, some "2024-01-01", 0⟩, ⟨2, 2, some "2024-01-02", 0⟩,
         ⟨3, 8, some "2024-01-03", 0⟩, ⟨4, 0, none, 0⟩]
        "least_viewed" true
      = Except.ok [⟨4, 0⟩, ⟨2, 1⟩, ⟨1, 2⟩, ⟨3, 3⟩] := by
  rfl

/-- C7: whenever the dislike filter leaves zero records, `randomize`
returns `ok []` for every algorithm string — a normal, non-error outcome. -/
theorem C7_empty_after_filter (g : Nat → Nat) (k : Nat)
    (mediaFiles : List MediaFile) (alg : String) (ex : Bool)
    (h : filterDisliked ex mediaFiles = []) :
    randomize g k mediaFiles alg ex = Except.ok [] :=
  randomize_of_filter_nil g k mediaFiles alg ex h

/-- Witness for C7: a non-empty input that the filter empties. -/
theorem C7_empty_after_filter_witness :
    filterDisliked true [⟨1, 2, none, -1⟩] = [] ∧
    randomize (fun _ => 0) 0 [⟨1, 2, none, -1⟩] "oldest_first" true
      = Except.ok [] :=
  ⟨by rfl, C7_empty_after_filter (fun _ => 0) 0 [⟨1, 2, none, -1⟩]
    "oldest_first" true (by rfl)⟩

/-- C9: for each of the six recognized names, `randomize` returns normally
on every input and every randomness outcome — in particular the
`mediaFiles[0]` access in `sortWithTieBreaker`'s grouping loop (modelled by
`deadGroups`) never fires on an empty list. -/
theorem C9_no_throw (g : Nat → Nat) (k : Nat) (mediaFiles : List MediaFile)
    (alg : String) (ex : Bool) (halg : alg ∈ recognizedAlgorithms) :
    ∃ out, randomize g k mediaFiles alg ex = Except.ok out := by
  by_cases hnil : filterDisliked ex mediaFiles = []
  · exact ⟨[], randomize_of_filter_nil g k mediaFiles alg ex hnil⟩
  · obtain ⟨r, hr⟩ := applyAlgorithm_ok g k alg (filterDisliked ex mediaFiles) halg
    refine ⟨toRanked r.1 0, ?_⟩
    rw [randomize_of_filter_ne_nil g k mediaFiles alg ex hnil, hr]
    rfl

/-- Witness for C9. -/
theorem C9_no_throw_witness :
    ∃ out, randomize (fun _ => 0) 0 [⟨7, 1, some "2023-12-31", 2⟩]
        "most_viewed" false = Except.ok out :=
  C9_no_throw (fun _ => 0) 0 [⟨7, 1, some "2023-12-31", 2⟩] "most_viewed"
    false (by decide)

/-- C2 (code bug): the grouping helper keys tie groups by
`view_count || like_count`, so records differing on the primary sort key
can land in one shuffle group.  Here the two records differ on
`view_count` (0 vs 7) under `least_viewed`, share the grouping key
`"7-null"`, and a reachable randomness outcome gives the higher-viewed
record the smaller `idx` — contradicting the tie-break rule and the code's
own comment ("shuffle within same counts"). -/
theorem C2_tie_group_defect_eval :
    (⟨1, 0, none, 7⟩ : MediaFile).view_count
        < (⟨2, 7, none, 0⟩ : MediaFile).view_count ∧
    finalKey ⟨1, 0, none, 7⟩ = finalKey ⟨2, 7, none, 0⟩ ∧
    randomize (fun _ => 0) 0 [⟨1, 0, none, 7⟩, ⟨2, 7, none, 0⟩]
        "least_viewed" true
      = Except.ok [⟨2, 0⟩, ⟨1, 1⟩] :=
  ⟨by decide, by rfl, by rfl⟩

/-- C4 counterexample: with an input that the dislike filter empties, an
unrecognized algorithm name does NOT raise — the empty early return runs
before the `switch`, so `randomize` returns `ok []`. -/
theorem C4_unknown_name_counterexample :
    ("no_such_algorithm" ∉ recognizedAlgorithms) ∧
    randomize (fun _ => 0) 0 [⟨1, 0, none, -1⟩] "no_such_algorithm" true
      = Except.ok [] :=
  ⟨by decide, by rfl⟩

/-- C4 (amended): when the dislike filter leaves at least one record,
calling `randomize` with a name outside the six-name set fails with the
error message identifying the unrecognized name, and produces no output;
when the filter leaves zero records, `randomize` returns the empty result
without error regardless of the name. -/
theorem C4_unknown_name_fails (g : Nat → Nat) (k : Nat)
    (mediaFiles : List MediaFile) (alg : String) (ex : Bool)
    (h1 : filterDisliked ex mediaFiles ≠ [])
    (h2 : alg ∉ recognizedAlgorithms) :
    randomize g k mediaFiles alg ex
      = Except.error ("Unknown prioritization algorithm: " ++ alg) := by
  have h6 : alg ≠ "random" ∧ alg ≠ "unviewed_first" ∧ alg ≠ "least_viewed" ∧
      alg ≠ "most_liked" ∧ alg ≠ "most_viewed" ∧ alg ≠ "oldest_first" := by
    simpa [recognizedAlgorithms, not_or] using h2
  obtain ⟨n1, n2, n3, n4, n5, n6⟩ := h6
  rw [randomize_of_filter_ne_nil g k mediaFiles alg ex h1]
  have happ : applyAlgorithm g k alg (filterDisliked ex mediaFiles)
      = Except.error ("Unknown prioritization algorithm: " ++ alg) := by
    unfold applyAlgorithm
    rw [if_neg n1, if_neg n2, if_neg n3, if_neg n4, if_neg n5, if_neg n6]
  rw [happ]
  rfl

/-- Witness for the amended C4. -/
theorem C4_unknown_name_fails_witness :
    filterDisliked true [⟨1, 0, none, 0⟩] ≠ [] ∧
    "bogus" ∉ recognizedAlgorithms ∧
    randomize (fun _ => 0) 0 [⟨1, 0, none, 0⟩] "bogus" true
      = Except.error ("Unknown prioritization algorithm: " ++ "bogus") :=
  ⟨by decide, by decide,
   C4_unknown_name_fails (fun _ => 0) 0 [⟨1, 0, none, 0⟩] "bogus" true
    (by decide) (by decide)⟩

/-- C5: for `unviewed_first` and `oldest_first`, every successful
`randomize` output is the index mapping of an internal order in which
every never-viewed record (absent `last_viewed`) sits at a strictly
smaller position — hence strictly smaller `idx` — than every viewed
record. -/
theorem C5_partition_invariant (g : Nat → Nat) (k : Nat)
    (mediaFiles : List MediaFile) (ex : Bool) (alg : String)
    (out : List RandomizedMedia)
    (halg : alg = "unviewed_first" ∨ alg = "oldest_first")
    (h : randomize g k mediaFiles alg ex = Except.ok out) :
    ∃ r : List MediaFile × Nat,
      applyAlgorithm g k alg (filterDisliked ex mediaFiles) = Except.ok r ∧
      out = toRanked r.1 0 ∧
      ∀ (i j : Nat) (hi : i < r.1.length) (hj : j < r.1.length),
        (r.1[i]).last_viewed = none → (r.1[j]).last_viewed ≠ none → i < j := by
  rcases halg with rfl | rfl
  · have happ : applyAlgorithm g k "unviewed_first" (filterDisliked ex mediaFiles)
        = Except.ok (prioritizeUnviewed g k (filterDisliked ex mediaFiles)) := by
      unfold applyAlgorithm
      rw [if_neg (by decide), if_pos rfl]
    obtain ⟨A, B, hAB, hA, hB⟩ :=
      prioritizeUnviewed_partition g k (filterDisliked ex mediaFiles)
    refine ⟨prioritizeUnviewed g k (filterDisliked ex mediaFiles), happ, ?_, ?_⟩
    · rcases randomize_shape g k mediaFiles "unviewed_first" ex out h with
        ⟨hnil, hout⟩ | ⟨r, hr, hout⟩
      · rw [hout, hnil]
        rfl
      · rw [hr] at happ
        cases happ
        exact hout
    · rw [hAB]
      exact partition_index hA hB
  · have happ : applyAlgorithm g k "oldest_first" (filterDisliked ex mediaFiles)
        = Except.ok (prioritizeOldestFirst g k (filterDisliked ex mediaFiles)) := by
      unfold applyAlgorithm
      rw [if_neg (by decide), if_neg (by decide), if_neg (by decide),
        if_neg (by decide), if_neg (by decide), if_pos rfl]
    obtain ⟨A, B, hAB, hA, hB⟩ :=
      prioritizeOldestFirst_partition g k (filterDisliked ex mediaFiles)
    refine ⟨prioritizeOldestFirst g k (filterDisliked ex mediaFiles), happ, ?_, ?_⟩
    · rcases randomize_shape g k mediaFiles "oldest_first" ex out h with
        ⟨hnil, hout⟩ | ⟨r, hr, hout⟩
      · rw [hout, hnil]
        rfl
      · rw [hr] at happ
        cases happ
        exact hout
    · rw [hAB]
      exact partition_index hA hB

/-- Witness for C5. -/
theorem C5_partition_invariant_witness :
    ∃ r : List MediaFile × Nat,
      applyAlgorithm (fun _ => 0) 0 "unviewed_first"
          (filterDisliked true
            [⟨1, 3, some "2024-01-05", 0⟩, ⟨2, 0, none, 0⟩]) = Except.ok r ∧
      ([⟨2, 0⟩, ⟨1, 1⟩] : List RandomizedMedia) = toRanked r.1 0 ∧
      ∀ (i j : Nat) (hi : i < r.1.length) (hj : j < r.1.length),
        (r.1[i]).last_viewed = none → (r.1[j]).last_viewed ≠ none → i < j :=
  C5_partition_invariant (fun _ => 0) 0
    [⟨1, 3, some "2024-01-05", 0⟩, ⟨2, 0, none, 0⟩] true "unviewed_first"
    [⟨2, 0⟩, ⟨1, 1⟩] (Or.inl rfl) (by rfl)

/-! ### Heap frame lemmas -/

/-- Frame reflexivity. -/
theorem heapFrameOn_refl (h : Heap) (n : Nat) (hn : n ≤ h.cells.length) :
    heapFrameOn h h n :=
  ⟨hn, fun _ _ => rfl⟩

/-- Frame transitivity. -/
theorem heapFrameOn_trans {h1 h2 h3 : Heap} {n : Nat}
    (a : heapFrameOn h1 h2 n) (b : heapFrameOn h2 h3 n) :
    heapFrameOn h1 h3 n :=
  ⟨b.1, fun q hq => (b.2 q hq).trans (a.2 q hq)⟩

/-- Allocation preserves every existing cell. -/
theorem alloc_frameOn (h : Heap) (v : List MediaFile) (n : Nat)
    (hn : n ≤ h.cells.length) : heapFrameOn h (h.alloc v).2 n := by
  constructor
  · simp only [Heap.alloc, List.length_append]
    omega
  · intro q hq
    simp only [Heap.alloc, Heap.read]
    exact List.getD_append h.cells [v] [] q (by omega)

/-- Writing to a cell at or beyond `n` preserves the first `n` cells. -/
theorem write_frameOn (h : Heap) (r : Nat) (v : List MediaFile) (n : Nat)
    (hn : n ≤ h.cells.length) (hr : n ≤ r) :
    heapFrameOn h (h.write r v) n := by
  constructor
  · simpa [Heap.write] using hn
  · intro q hq
    simp only [Heap.write, Heap.read, List.getD_eq_getElem?_getD]
    rw [List.getElem?_set_ne (by omega)]

/-- The in-place Fisher–Yates loop touches only its own array cell. -/
theorem fyLoopH_frameOn (g : Nat → Nat) (r : Nat) (n : Nat) (hr : n ≤ r) :
    ∀ (i : Nat) (h : Heap) (k : Nat), n ≤ h.cells.length →
      heapFrameOn h (fyLoopH g r h k i).1 n
  | 0, h, k, hn => heapFrameOn_refl h n hn
  | i + 1, h, k, hn => by
    have hw := write_frameOn h r
      (listSwap (h.read r) (i + 1) (g k % (i + 2))) n hn hr
    exact heapFrameOn_trans hw
      (fyLoopH_frameOn g r n hr i _ (k + 1) hw.1)

/-- `shuffleRandom` (heap level) only allocates and writes its fresh copy. -/
theorem shuffleRandomHV_frameOn (g : Nat → Nat) (h : Heap)
    (v : List MediaFile) (k : Nat) (n : Nat) (hn : n ≤ h.cells.length) :
    heapFrameOn h (shuffleRandomHV g h v k).2.1 n := by
  have ha := alloc_frameOn h v n hn
  exact heapFrameOn_trans ha
    (fyLoopH_frameOn g (h.alloc v).1 n (by simpa [Heap.alloc] using hn)
      (v.length - 1) (h.alloc v).2 k ha.1)

/-- Heap-level `prioritizeUnviewed` preserves all pre-existing cells. -/
theorem prioritizeUnviewedH_frameOn (g : Nat → Nat) (h : Heap) (src : Nat)
    (k : Nat) (n : Nat) (hn : n ≤ h.cells.length) :
    heapFrameOn h (prioritizeUnviewedH g h src k).2.1 n := by
  let A : List MediaFile := (h.read src).filter fun m => m.last_viewed.isNone
  let u2 : Heap := (h.alloc A).2
  let B : List MediaFile := (u2.read src).filter fun m => !m.last_viewed.isNone
  let v2 : Heap := (u2.alloc B).2
  let su : Nat × Heap × Nat := shuffleRandomHV g v2 (v2.read (h.alloc A).1) k
  let sv : Nat × Heap × Nat :=
    shuffleRandomHV g su.2.1 (su.2.1.read (u2.alloc B).1) su.2.2
  have f1 : heapFrameOn h u2 n := alloc_frameOn h A n hn
  have f2 : heapFrameOn u2 v2 n := alloc_frameOn u2 B n f1.1
  have f3 : heapFrameOn v2 su.2.1 n :=
    shuffleRandomHV_frameOn g v2 (v2.read (h.alloc A).1) k n f2.1
  have f4 : heapFrameOn su.2.1 sv.2.1 n :=
    shuffleRandomHV_frameOn g su.2.1 (su.2.1.read (u2.alloc B).1) su.2.2 n f3.1
  have f5 : heapFrameOn sv.2.1
      (sv.2.1.alloc (sv.2.1.read su.1 ++ sv.2.1.read sv.1)).2 n :=
    alloc_frameOn sv.2.1 _ n f4.1
  exact heapFrameOn_trans f1 (heapFrameOn_trans f2 (heapFrameOn_trans f3
    (heapFrameOn_trans f4 f5)))

/-- The shuffle-and-push fold of heap-level `sortWithTieBreaker` preserves
cells below `n` when the `result` array sits at or beyond `n`. -/
theorem foldShuffle_frameOn (g : Nat → Nat) (rres : Nat) (n : Nat)
    (hr : n ≤ rres) :
    ∀ (groups : List (String × List MediaFile)) (h : Heap) (k : Nat),
      n ≤ h.cells.length →
      heapFrameOn h
        (groups.foldl
          (fun (st : Heap × Nat) kv =>
            let sh := shuffleRandomHV g st.1 kv.2 st.2
            (sh.2.1.write rres (sh.2.1.read rres ++ sh.2.1.read sh.1), sh.2.2))
          (h, k)).1 n
  | [], h, k, hn => heapFrameOn_refl h n hn
  | kv :: rest, h, k, hn => by
    have f1 := shuffleRandomHV_frameOn g h kv.2 k n hn
    have f2 := write_frameOn (shuffleRandomHV g h kv.2 k).2.1 rres
      ((shuffleRandomHV g h kv.2 k).2.1.read rres ++
        (shuffleRandomHV g h kv.2 k).2.1.read (shuffleRandomHV g h kv.2 k).1)
      n f1.1 hr
    exact heapFrameOn_trans (heapFrameOn_trans f1 f2)
      (foldShuffle_frameOn g rres n hr rest _ _ f2.1)

/-- Heap-level `sortWithTieBreaker` preserves all pre-existing cells. -/
theorem sortWithTieBreakerH_frameOn (g : Nat → Nat)
    (pCmp sCmp : MediaFile → MediaFile → Int) (h : Heap) (src : Nat)
    (k : Nat) (n : Nat) (hn : n ≤ h.cells.length)
    (res : Nat × Heap × Nat)
    (hres : sortWithTieBreakerH g pCmp sCmp h src k = Except.ok res) :
    heapFrameOn h res.2.1 n := by
  obtain ⟨v, hv⟩ := deadGroups_ok pCmp (h.read src)
  unfold sortWithTieBreakerH at hres
  rw [hv] at hres
  cases hres
  let s2 : Heap := (h.alloc (h.read src)).2
  let hW : Heap := s2.write (h.alloc (h.read src)).1
    ((s2.read (h.alloc (h.read src)).1).insertionSort
      fun a b => tieCmp pCmp sCmp a b ≤ 0)
  let hR : Heap := (hW.alloc []).2
  let rres : Nat := (hW.alloc []).1
  have f1 : heapFrameOn h s2 n := alloc_frameOn h (h.read src) n hn
  have f2 : heapFrameOn s2 hW n :=
    write_frameOn s2 (h.alloc (h.read src)).1 _ n f1.1
      (by simpa [Heap.alloc] using hn)
  have f3 : heapFrameOn hW hR n := alloc_frameOn hW [] n f2.1
  have hrres : n ≤ rres := by
    show n ≤ hW.cells.length
    exact f2.1
  have f4 := foldShuffle_frameOn g rres n hrres
    ((hW.read (h.alloc (h.read src)).1).foldl
      (fun m media => insertGroup m (finalKey media) media) []) hR k f3.1
  exact heapFrameOn_trans f1 (heapFrameOn_trans f2 (heapFrameOn_trans f3 f4))

/-- Heap-level `prioritizeOldestFirst` preserves all pre-existing cells. -/
theorem prioritizeOldestFirstH_frameOn (g : Nat → Nat) (h : Heap) (src : Nat)
    (k : Nat) (n : Nat) (hn : n ≤ h.cells.length) :
    heapFrameOn h (prioritizeOldestFirstH g h src k).2.1 n := by
  let A : List MediaFile := (h.read src).filter fun m => m.last_viewed.isNone
  let n2 : Heap := (h.alloc A).2
  let B : List MediaFile := (n2.read src).filter fun m => !m.last_viewed.isNone
  let v2 : Heap := (n2.alloc B).2
  let h1 : Heap := v2.write (n2.alloc B).1
    ((v2.read (n2.alloc B).1).insertionSort fun a b =>
      compareDates a.last_viewed b.last_viewed ≤ 0)
  let snv : Nat × Heap × Nat := shuffleRandomHV g h1 (h1.read (h.alloc A).1) k
  have f1 : heapFrameOn h n2 n := alloc_frameOn h A n hn
  have f2 : heapFrameOn n2 v2 n := alloc_frameOn n2 B n f1.1
  have hv1 : n ≤ (n2.alloc B).1 := by
    show n ≤ n2.cells.length
    exact f1.1
  have f3 : heapFrameOn v2 h1 n :=
    write_frameOn v2 (n2.alloc B).1 _ n f2.1 hv1
  have f4 : heapFrameOn h1 snv.2.1 n :=
    shuffleRandomHV_frameOn g h1 (h1.read (h.alloc A).1) k n f3.1
  have f5 : heapFrameOn snv.2.1
      (snv.2.1.alloc (snv.2.1.read snv.1 ++ snv.2.1.read (n2.alloc B).1)).2 n :=
    alloc_frameOn snv.2.1 _ n f4.1
  exact heapFrameOn_trans f1 (heapFrameOn_trans f2 (heapFrameOn_trans f3
    (heapFrameOn_trans f4 f5)))

/-- Heap-level dispatch preserves all pre-existing cells on success. -/
theorem applyAlgorithmH_frameOn (g : Nat → Nat) (alg : String) (h : Heap)
    (src : Nat) (k : Nat) (n : Nat) (hn : n ≤ h.cells.length)
    (res : Nat × Heap × Nat)
    (hres : applyAlgorithmH g alg h src k = Except.ok res) :
    heapFrameOn h res.2.1 n := by
  unfold applyAlgorithmH at hres
  split_ifs at hres
  · cases hres; exact shuffleRandomHV_frameOn g h _ k n hn
  · cases hres; exact prioritizeUnviewedH_frameOn g h src k n hn
  · exact sortWithTieBreakerH_frameOn g _ _ h src k n hn res hres
  · exact sortWithTieBreakerH_frameOn g _ _ h src k n hn res hres
  · exact sortWithTieBreakerH_frameOn g _ _ h src k n hn res hres
  · cases hres; exact prioritizeOldestFirstH_frameOn g h src k n hn

/-! ### Heap/pure agreement -/

/-- Reading a freshly allocated cell yields the allocated value. -/
theorem read_alloc_self (h : Heap) (v : List MediaFile) :
    (h.alloc v).2.read (h.alloc v).1 = v := by
  simp only [Heap.alloc, Heap.read, List.getD_eq_getElem?_getD]
  rw [List.getElem?_concat_length]
  rfl

/-- Reading a just-written cell yields the written value. -/
theorem read_write_self (h : Heap) (r : Nat) (v : List MediaFile)
    (hr : r < h.cells.length) : (h.write r v).read r = v := by
  simp only [Heap.write, Heap.read, List.getD_eq_getElem?_getD]
  rw [List.getElem?_set_self hr]
  rfl

/-- Allocation adds one cell. -/
theorem alloc_length (h : Heap) (v : List MediaFile) :
    (h.alloc v).2.cells.length = h.cells.length + 1 := by
  simp [Heap.alloc]

/-- Writing preserves the cell count. -/
theorem write_length (h : Heap) (r : Nat) (v : List MediaFile) :
    (h.write r v).cells.length = h.cells.length := by
  simp [Heap.write]

/-- The in-place Fisher–Yates loop computes exactly `shuffleAux` on the
contents of its cell, and the draw counters agree. -/
theorem fyLoopH_agree (g : Nat → Nat) (r : Nat) :
    ∀ (i : Nat) (h : Heap) (k : Nat), r < h.cells.length →
      (fyLoopH g r h k i).1.read r = (shuffleAux g (h.read r) k i).1 ∧
      (fyLoopH g r h k i).2 = (shuffleAux g (h.read r) k i).2 ∧
      (fyLoopH g r h k i).1.cells.length = h.cells.length
  | 0, h, k, hr => ⟨rfl, rfl, rfl⟩
  | i + 1, h, k, hr => by
    have hw : (h.write r (listSwap (h.read r) (i + 1) (g k % (i + 2)))).read r
        = listSwap (h.read r) (i + 1) (g k % (i + 2)) :=
      read_write_self h r _ hr
    have hl : (h.write r (listSwap (h.read r) (i + 1) (g k % (i + 2)))).cells.length
        = h.cells.length := write_length h r _
    have ih := fyLoopH_agree g r i
      (h.write r (listSwap (h.read r) (i + 1) (g k % (i + 2)))) (k + 1)
      (by rw [hl]; exact hr)
    refine ⟨?_, ?_, ?_⟩
    · have h1 := ih.1
      rw [hw] at h1
      exact h1
    · have h2 := ih.2.1
      rw [hw] at h2
      exact h2
    · exact ih.2.2.trans hl

/-- Heap-level `shuffleRandom` computes the same list and counter as the
pure `shuffleRandom`, on a single fresh cell. -/
theorem shuffleRandomHV_agree (g : Nat → Nat) (h : Heap) (v : List MediaFile)
    (k : Nat) :
    (shuffleRandomHV g h v k).2.1.read (shuffleRandomHV g h v k).1
        = (shuffleRandom g k v).1 ∧
    (shuffleRandomHV g h v k).2.2 = (shuffleRandom g k v).2 ∧
    (shuffleRandomHV g h v k).2.1.cells.length = h.cells.length + 1 ∧
    (shuffleRandomHV g h v k).1 = h.cells.length := by
  have hread := read_alloc_self h v
  have hlt : (h.alloc v).1 < (h.alloc v).2.cells.length := by
    rw [alloc_length]
    exact Nat.lt_succ_of_le (Nat.le_refl _)
  have ag := fyLoopH_agree g (h.alloc v).1 (v.length - 1) (h.alloc v).2 k hlt
  rw [hread] at ag
  exact ⟨ag.1, ag.2.1, ag.2.2.trans (alloc_length h v), rfl⟩

/-- The shuffle-and-push fold computes exactly the pure `shuffleGroups`
fold, with the accumulator living in the `result` cell. -/
theorem foldShuffle_agree (g : Nat → Nat) (rres : Nat) :
    ∀ (groups : List (String × List MediaFile)) (h : Heap) (k : Nat),
      rres < h.cells.length →
      ((groups.foldl
          (fun (st : Heap × Nat) kv =>
            let sh := shuffleRandomHV g st.1 kv.2 st.2
            (sh.2.1.write rres (sh.2.1.read rres ++ sh.2.1.read sh.1), sh.2.2))
          (h, k)).1.read rres
        = (groups.foldl
            (fun (acc : List MediaFile × Nat) kv =>
              let s := shuffleRandom g acc.2 kv.2
              (acc.1 ++ s.1, s.2)) (h.read rres, k)).1 ∧
       (groups.foldl
          (fun (st : Heap × Nat) kv =>
            let sh := shuffleRandomHV g st.1 kv.2 st.2
            (sh.2.1.write rres (sh.2.1.read rres ++ sh.2.1.read sh.1), sh.2.2))
          (h, k)).2
        = (groups.foldl
            (fun (acc : List MediaFile × Nat) kv =>
              let s := shuffleRandom g acc.2 kv.2
              (acc.1 ++ s.1, s.2)) (h.read rres, k)).2 ∧
       rres < ((groups.foldl
          (fun (st : Heap × Nat) kv =>
            let sh := shuffleRandomHV g st.1 kv.2 st.2
            (sh.2.1.write rres (sh.2.1.read rres ++ sh.2.1.read sh.1), sh.2.2))
          (h, k)).1.cells.length))
  | [], h, k, hr => ⟨rfl, rfl, hr⟩
  | kv :: rest, h, k, hr => by
    have hag := shuffleRandomHV_agree g h kv.2 k
    have hfr := shuffleRandomHV_frameOn g h kv.2 k h.cells.length (Nat.le_refl _)
    have hreadres : (shuffleRandomHV g h kv.2 k).2.1.read rres = h.read rres :=
      hfr.2 rres hr
    have hrlt : rres < (shuffleRandomHV g h kv.2 k).2.1.cells.length := by
      rw [hag.2.2.1]
      omega
    have hwread : ((shuffleRandomHV g h kv.2 k).2.1.write rres
          ((shuffleRandomHV g h kv.2 k).2.1.read rres ++
            (shuffleRandomHV g h kv.2 k).2.1.read (shuffleRandomHV g h kv.2 k).1)).read rres
        = h.read rres ++ (shuffleRandom g k kv.2).1 := by
      rw [read_write_self _ _ _ hrlt, hreadres, hag.1]
    have hwlen : rres < ((shuffleRandomHV g h kv.2 k).2.1.write rres
          ((shuffleRandomHV g h kv.2 k).2.1.read rres ++
            (shuffleRandomHV g h kv.2 k).2.1.read (shuffleRandomHV g h kv.2 k).1)).cells.length := by
      rw [write_length]
      exact hrlt
    have ih := foldShuffle_agree g rres rest
      ((shuffleRandomHV g h kv.2 k).2.1.write rres
        ((shuffleRandomHV g h kv.2 k).2.1.read rres ++
          (shuffleRandomHV g h kv.2 k).2.1.read (shuffleRandomHV g h kv.2 k).1))
      (shuffleRandomHV g h kv.2 k).2.2 hwlen
    simp only [List.foldl_cons]
    rw [← hwread, ← hag.2.1]
    exact ih

/-- Heap-level `prioritizeUnviewed` computes the same ordered list and
draw counter as the pure `prioritizeUnviewed` on the source cell's
contents. -/
theorem prioritizeUnviewedH_agree (g : Nat → Nat) (h : Heap) (src k : Nat)
    (hsrc : src < h.cells.length) :
    (prioritizeUnviewedH g h src k).2.1.read (prioritizeUnviewedH g h src k).1
        = (prioritizeUnviewed g k (h.read src)).1 ∧
    (prioritizeUnviewedH g h src k).2.2 = (prioritizeUnviewed g k (h.read src)).2 := by
  have husrc : (h.alloc ((h.read src).filter fun m => m.last_viewed.isNone)).2.read src = h.read src :=
    (alloc_frameOn h ((h.read src).filter fun m => m.last_viewed.isNone) h.cells.length (Nat.le_refl _)).2 src hsrc
  have e_u1lt : (h.alloc ((h.read src).filter fun m => m.last_viewed.isNone)).1 < (h.alloc ((h.read src).filter fun m => m.last_viewed.isNone)).2.cells.length := by
    rw [alloc_length]
    exact Nat.lt_succ_of_le (Nat.le_refl _)
  have e_u1read : ((h.alloc ((h.read src).filter fun m => m.last_viewed.isNone)).2.alloc (((h.alloc ((h.read src).filter fun m => m.last_viewed.isNone)).2.read src).filter fun m => !m.last_viewed.isNone)).2.read (h.alloc ((h.read src).filter fun m => m.last_viewed.isNone)).1 = ((h.read src).filter fun m => m.last_viewed.isNone) := by
    rw [(alloc_frameOn (h.alloc ((h.read src).filter fun m => m.last_viewed.isNone)).2 (((h.alloc ((h.read src).filter fun m => m.last_viewed.isNone)).2.read src).filter fun m => !m.last_viewed.isNone) ((h.alloc ((h.read src).filter fun m => m.last_viewed.isNone)).2.cells.length) (Nat.le_refl _)).2 (h.alloc ((h.read src).filter fun m => m.last_viewed.isNone)).1 e_u1lt]
    exact read_alloc_self h ((h.read src).filter fun m => m.last_viewed.isNone)
  have e_v1lt : ((h.alloc ((h.read src).filter fun m => m.last_viewed.isNone)).2.alloc (((h.alloc ((h.read src).filter fun m => m.last_viewed.isNone)).2.read src).filter fun m => !m.last_viewed.isNone)).1 < ((h.alloc ((h.read src).filter fun m => m.last_viewed.isNone)).2.alloc (((h.alloc ((h.read src).filter fun m => m.last_viewed.isNone)).2.read src).filter fun m => !m.last_viewed.isNone)).2.cells.length := by
    rw [alloc_length]
    exact Nat.lt_succ_of_le (Nat.le_refl _)
  have hsuA := shuffleRandomHV_agree g ((h.alloc ((h.read src).filter fun m => m.last_viewed.isNone)).2.alloc (((h.alloc ((h.read src).filter fun m => m.last_viewed.isNone)).2.read src).filter fun m => !m.last_viewed.isNone)).2 ((h.read src).filter fun m => m.last_viewed.isNone) k
  have e_su1lt : (shuffleRandomHV g ((h.alloc ((h.read src).filter fun m => m.last_viewed.isNone)).2.alloc (((h.alloc ((h.read src).filter fun m => m.last_viewed.isNone)).2.read src).filter fun m => !m.last_viewed.isNone)).2 ((h.read src).filter fun m => m.last_viewed.isNone) k).1 < (shuffleRandomHV g ((h.alloc ((h.read src).filter fun m => m.last_viewed.isNone)).2.alloc (((h.alloc ((h.read src).filter fun m => m.last_viewed.isNone)).2.read src).filter fun m => !m.last_viewed.isNone)).2 ((h.read src).filter fun m => m.last_viewed.isNone) k).2.1.cells.length := by
    rw [hsuA.2.2.1, hsuA.2.2.2]
    exact Nat.lt_succ_of_le (Nat.le_refl _)
  have e_v1read : (shuffleRandomHV g ((h.alloc ((h.read src).filter fun m => m.last_viewed.isNone)).2.alloc (((h.alloc ((h.read src).filter fun m => m.last_viewed.isNone)).2.read src).filter fun m => !m.last_viewed.isNone)).2 ((h.read src).filter fun m => m.last_viewed.isNone) k).2.1.read ((h.alloc ((h.read src).filter fun m => m.last_viewed.isNone)).2.alloc (((h.alloc ((h.read src).filter fun m => m.last_viewed.isNone)).2.read src).filter fun m => !m.last_viewed.isNone)).1 = (((h.alloc ((h.read src).filter fun m => m.last_viewed.isNone)).2.read src).filter fun m => !m.last_viewed.isNone) := by
    rw [(shuffleRandomHV_frameOn g ((h.alloc ((h.read src).filter fun m => m.last_viewed.isNone)).2.alloc (((h.alloc ((h.read src).filter fun m => m.last_viewed.isNone)).2.read src).filter fun m => !m.last_viewed.isNone)).2 ((h.read src).filter fun m => m.last_viewed.isNone) k (((h.alloc ((h.read src).filter fun m => m.last_viewed.isNone)).2.alloc (((h.alloc ((h.read src).filter fun m => m.last_viewed.isNone)).2.read src).filter fun m => !m.last_viewed.isNone)).2.cells.length)
      (Nat.le_refl _)).2 ((h.alloc ((h.read src).filter fun m => m.last_viewed.isNone)).2.alloc (((h.alloc ((h.read src).filter fun m => m.last_viewed.isNone)).2.read src).filter fun m => !m.last_viewed.isNone)).1 e_v1lt]
    exact read_alloc_self (h.alloc ((h.read src).filter fun m => m.last_viewed.isNone)).2 (((h.alloc ((h.read src).filter fun m => m.last_viewed.isNone)).2.read src).filter fun m => !m.last_viewed.isNone)
  have hsvA := shuffleRandomHV_agree g (shuffleRandomHV g ((h.alloc ((h.read src).filter fun m => m.last_viewed.isNone)).2.alloc (((h.alloc ((h.read src).filter fun m => m.last_viewed.isNone)).2.read src).filter fun m => !m.last_viewed.isNone)).2 ((h.read src).filter fun m => m.last_viewed.isNone) k).2.1 ((shuffleRandomHV g ((h.alloc ((h.read src).filter fun m => m.last_viewed.isNone)).2.alloc (((h.alloc ((h.read src).filter fun m => m.last_viewed.isNone)).2.read src).filter fun m => !m.last_viewed.isNone)).2 ((h.read src).filter fun m => m.last_viewed.isNone) k).2.1.read ((h.alloc ((h.read src).filter fun m => m.last_viewed.isNone)).2.alloc (((h.alloc ((h.read src).filter fun m => m.last_viewed.isNone)).2.read src).filter fun m => !m.last_viewed.isNone)).1) (shuffleRandomHV g ((h.alloc ((h.read src).filter fun m => m.last_viewed.isNone)).2.alloc (((h.alloc ((h.read src).filter fun m => m.last_viewed.isNone)).2.read src).filter fun m => !m.last_viewed.isNone)).2 ((h.read src).filter fun m => m.last_viewed.isNone) k).2.2
  have hfrsv := shuffleRandomHV_frameOn g (shuffleRandomHV g ((h.alloc ((h.read src).filter fun m => m.last_viewed.isNone)).2.alloc (((h.alloc ((h.read src).filter fun m => m.last_viewed.isNone)).2.read src).filter fun m => !m.last_viewed.isNone)).2 ((h.read src).filter fun m => m.last_viewed.isNone) k).2.1 ((shuffleRandomHV g ((h.alloc ((h.read src).filter fun m => m.last_viewed.isNone)).2.alloc (((h.alloc ((h.read src).filter fun m => m.last_viewed.isNone)).2.read src).filter fun m => !m.last_viewed.isNone)).2 ((h.read src).filter fun m => m.last_viewed.isNone) k).2.1.read ((h.alloc ((h.read src).filter fun m => m.last_viewed.isNone)).2.alloc (((h.alloc ((h.read src).filter fun m => m.last_viewed.isNone)).2.read src).filter fun m => !m.last_viewed.isNone)).1) (shuffleRandomHV g ((h.alloc ((h.read src).filter fun m => m.last_viewed.isNone)).2.alloc (((h.alloc ((h.read src).filter fun m => m.last_viewed.isNone)).2.read src).filter fun m => !m.last_viewed.isNone)).2 ((h.read src).filter fun m => m.last_viewed.isNone) k).2.2
    ((shuffleRandomHV g ((h.alloc ((h.read src).filter fun m => m.last_viewed.isNone)).2.alloc (((h.alloc ((h.read src).filter fun m => m.last_viewed.isNone)).2.read src).filter fun m => !m.last_viewed.isNone)).2 ((h.read src).filter fun m => m.last_viewed.isNone) k).2.1.cells.length) (Nat.le_refl _)
  refine ⟨?_, ?_⟩
  · show ((shuffleRandomHV g (shuffleRandomHV g ((h.alloc ((h.read src).filter fun m => m.last_viewed.isNone)).2.alloc (((h.alloc ((h.read src).filter fun m => m.last_viewed.isNone)).2.read src).filter fun m => !m.last_viewed.isNone)).2 (((h.alloc ((h.read src).filter fun m => m.last_viewed.isNone)).2.alloc (((h.alloc ((h.read src).filter fun m => m.last_viewed.isNone)).2.read src).filter fun m => !m.last_viewed.isNone)).2.read (h.alloc ((h.read src).filter fun m => m.last_viewed.isNone)).1) k).2.1 ((shuffleRandomHV g ((h.alloc ((h.read src).filter fun m => m.last_viewed.isNone)).2.alloc (((h.alloc ((h.read src).filter fun m => m.last_viewed.isNone)).2.read src).filter fun m => !m.last_viewed.isNone)).2 (((h.alloc ((h.read src).filter fun m => m.last_viewed.isNone)).2.alloc (((h.alloc ((h.read src).filter fun m => m.last_viewed.isNone)).2.read src).filter fun m => !m.last_viewed.isNone)).2.read (h.alloc ((h.read src).filter fun m => m.last_viewed.isNone)).1) k).2.1.read ((h.alloc ((h.read src).filter fun m => m.last_viewed.isNone)).2.alloc (((h.alloc ((h.read src).filter fun m => m.last_viewed.isNone)).2.read src).filter fun m => !m.last_viewed.isNone)).1) (shuffleRandomHV g ((h.alloc ((h.read src).filter fun m => m.last_viewed.isNone)).2.alloc (((h.alloc ((h.read src).filter fun m => m.last_viewed.isNone)).2.read src).filter fun m => !m.last_viewed.isNone)).2 (((h.alloc ((h.read src).filter fun m => m.last_viewed.isNone)).2.alloc (((h.alloc ((h.read src).filter fun m => m.last_viewed.isNone)).2.read src).filter fun m => !m.last_viewed.isNone)).2.read (h.alloc ((h.read src).filter fun m => m.last_viewed.isNone)).1) k).2.2).2.1.alloc ((shuffleRandomHV g (shuffleRandomHV g ((h.alloc ((h.read src).filter fun m => m.last_viewed.isNone)).2.alloc (((h.alloc ((h.read src).filter fun m => m.last_viewed.isNone)).2.read src).filter fun m => !m.last_viewed.isNone)).2 (((h.alloc ((h.read src).filter fun m => m.last_viewed.isNone)).2.alloc (((h.alloc ((h.read src).filter fun m => m.last_viewed.isNone)).2.read src).filter fun m => !m.last_viewed.isNone)).2.read (h.alloc ((h.read src).filter fun m => m.last_viewed.isNone)).1) k).2.1 ((shuffleRandomHV g ((h.alloc ((h.read src).filter fun m => m.last_viewed.isNone)).2.alloc (((h.alloc ((h.read src).filter fun m => m.last_viewed.isNone)).2.read src).filter fun m => !m.last_viewed.isNone)).2 (((h.alloc ((h.read src).filter fun m => m.last_viewed.isNone)).2.alloc (((h.alloc ((h.read src).filter fun m => m.last_viewed.isNone)).2.read src).filter fun m => !m.last_viewed.isNone)).2.read (h.alloc ((h.read src).filter fun m => m.last_viewed.isNone)).1) k).2.1.read ((h.alloc ((h.read src).filter fun m => m.last_viewed.isNone)).2.alloc (((h.alloc ((h.read src).filter fun m => m.last_viewed.isNone)).2.read src).filter fun m => !m.last_viewed.isNone)).1) (shuffleRandomHV g ((h.alloc ((h.read src).filter fun m => m.last_viewed.isNone)).2.alloc (((h.alloc ((h.read src).filter fun m => m.last_viewed.isNone)).2.read src).filter fun m => !m.last_viewed.isNone)).2 (((h.alloc ((h.read src).filter fun m => m.last_viewed.isNone)).2.alloc (((h.alloc ((h.read src).filter fun m => m.last_viewed.isNone)).2.read src).filter fun m => !m.last_viewed.isNone)).2.read (h.alloc ((h.read src).filter fun m => m.last_viewed.isNone)).1) k).2.2).2.1.read (shuffleRandomHV g ((h.alloc ((h.read src).filter fun m => m.last_viewed.isNone)).2.alloc (((h.alloc ((h.read src).filter fun m => m.last_viewed.isNone)).2.read src).filter fun m => !m.last_viewed.isNone)).2 (((h.alloc ((h.read src).filter fun m => m.last_viewed.isNone)).2.alloc (((h.alloc ((h.read src).filter fun m => m.last_viewed.isNone)).2.read src).filter fun m => !m.last_viewed.isNone)).2.read (h.alloc ((h.read src).filter fun m => m.last_viewed.isNone)).1) k).1 ++ (shuffleRandomHV g (shuffleRandomHV g ((h.alloc ((h.read src).filter fun m => m.last_viewed.isNone)).2.alloc (((h.alloc ((h.read src).filter fun m => m.last_viewed.isNone)).2.read src).filter fun m => !m.last_viewed.isNone)).2 (((h.alloc ((h.read src).filter fun m => m.last_viewed.isNone)).2.alloc (((h.alloc ((h.read src).filter fun m => m.last_viewed.isNone)).2.read src).filter fun m => !m.last_viewed.isNone)).2.read (h.alloc ((h.read src).filter fun m => m.last_viewed.isNone)).1) k).2.1 ((shuffleRandomHV g ((h.alloc ((h.read src).filter fun m => m.last_viewed.isNone)).2.alloc (((h.alloc ((h.read src).filter fun m => m.last_viewed.isNone)).2.read src).filter fun m => !m.last_viewed.isNone)).2 (((h.alloc ((h.read src).filter fun m => m.last_viewed.isNone)).2.alloc (((h.alloc ((h.read src).filter fun m => m.last_viewed.isNone)).2.read src).filter fun m => !m.last_viewed.isNone)).2.read (h.alloc ((h.read src).filter fun m => m.last_viewed.isNone)).1) k).2.1.read ((h.alloc ((h.read src).filter fun m => m.last_viewed.isNone)).2.alloc (((h.alloc ((h.read src).filter fun m => m.last_viewed.isNone)).2.read src).filter fun m => !m.last_viewed.isNone)).1) (shuffleRandomHV g ((h.alloc ((h.read src).filter fun m => m.last_viewed.isNone)).2.alloc (((h.alloc ((h.read src).filter fun m => m.last_viewed.isNone)).2.read src).filter fun m => !m.last_viewed.isNone)).2 (((h.alloc ((h.read src).filter fun m => m.last_viewed.isNone)).2.alloc (((h.alloc ((h.read src).filter fun m => m.last_viewed.isNone)).2.read src).filter fun m => !m.last_viewed.isNone)).2.read (h.alloc ((h.read src).filter fun m => m.last_viewed.isNone)).1) k).2.2).2.1.read (shuffleRandomHV g (shuffleRandomHV g ((h.alloc ((h.read src).filter fun m => m.last_viewed.isNone)).2.alloc (((h.alloc ((h.read src).filter fun m => m.last_viewed.isNone)).2.read src).filter fun m => !m.last_viewed.isNone)).2 (((h.alloc ((h.read src).filter fun m => m.last_viewed.isNone)).2.alloc (((h.alloc ((h.read src).filter fun m => m.last_viewed.isNone)).2.read src).filter fun m => !m.last_viewed.isNone)).2.read (h.alloc ((h.read src).filter fun m => m.last_viewed.isNone)).1) k).2.1 ((shuffleRandomHV g ((h.alloc ((h.read src).filter fun m => m.last_viewed.isNone)).2.alloc (((h.alloc ((h.read src).filter fun m => m.last_viewed.isNone)).2.read src).filter fun m => !m.last_viewed.isNone)).2 (((h.alloc ((h.read src).filter fun m => m.last_viewed.isNone)).2.alloc (((h.alloc ((h.read src).filter fun m => m.last_viewed.isNone)).2.read src).filter fun m => !m.last_viewed.isNone)).2.read (h.alloc ((h.read src).filter fun m => m.last_viewed.isNone)).1) k).2.1.read ((h.alloc ((h.read src).filter fun m => m.last_viewed.isNone)).2.alloc (((h.alloc ((h.read src).filter fun m => m.last_viewed.isNone)).2.read src).filter fun m => !m.last_viewed.isNone)).1) (shuffleRandomHV g ((h.alloc ((h.read src).filter fun m => m.last_viewed.isNone)).2.alloc (((h.alloc ((h.read src).filter fun m => m.last_viewed.isNone)).2.read src).filter fun m => !m.last_viewed.isNone)).2 (((h.alloc ((h.read src).filter fun m => m.last_viewed.isNone)).2.alloc (((h.alloc ((h.read src).filter fun m => m.last_viewed.isNone)).2.read src).filter fun m => !m.last_viewed.isNone)).2.read (h.alloc ((h.read src).filter fun m => m.last_viewed.isNone)).1) k).2.2).1)).2.read ((shuffleRandomHV g (shuffleRandomHV g ((h.alloc ((h.read src).filter fun m => m.last_viewed.isNone)).2.alloc (((h.alloc ((h.read src).filter fun m => m.last_viewed.isNone)).2.read src).filter fun m => !m.last_viewed.isNone)).2 (((h.alloc ((h.read src).filter fun m => m.last_viewed.isNone)).2.alloc (((h.alloc ((h.read src).filter fun m => m.last_viewed.isNone)).2.read src).filter fun m => !m.last_viewed.isNone)).2.read (h.alloc ((h.read src).filter fun m => m.last_viewed.isNone)).1) k).2.1 ((shuffleRandomHV g ((h.alloc ((h.read src).filter fun m => m.last_viewed.isNone)).2.alloc (((h.alloc ((h.read src).filter fun m => m.last_viewed.isNone)).2.read src).filter fun m => !m.last_viewed.isNone)).2 (((h.alloc ((h.read src).filter fun m => m.last_viewed.isNone)).2.alloc (((h.alloc ((h.read src).filter fun m => m.last_viewed.isNone)).2.read src).filter fun m => !m.last_viewed.isNone)).2.read (h.alloc ((h.read src).filter fun m => m.last_viewed.isNone)).1) k).2.1.read ((h.alloc ((h.read src).filter fun m => m.last_viewed.isNone)).2.alloc (((h.alloc ((h.read src).filter fun m => m.last_viewed.isNone)).2.read src).filter fun m => !m.last_viewed.isNone)).1) (shuffleRandomHV g ((h.alloc ((h.read src).filter fun m => m.last_viewed.isNone)).2.alloc (((h.alloc ((h.read src).filter fun m => m.last_viewed.isNone)).2.read src).filter fun m => !m.last_viewed.isNone)).2 (((h.alloc ((h.read src).filter fun m => m.last_viewed.isNone)).2.alloc (((h.alloc ((h.read src).filter fun m => m.last_viewed.isNone)).2.read src).filter fun m => !m.last_viewed.isNone)).2.read (h.alloc ((h.read src).filter fun m => m.last_viewed.isNone)).1) k).2.2).2.1.alloc ((shuffleRandomHV g (shuffleRandomHV g ((h.alloc ((h.read src).filter fun m => m.last_viewed.isNone)).2.alloc (((h.alloc ((h.read src).filter fun m => m.last_viewed.isNone)).2.read src).filter fun m => !m.last_viewed.isNone)).2 (((h.alloc ((h.read src).filter fun m => m.last_viewed.isNone)).2.alloc (((h.alloc ((h.read src).filter fun m => m.last_viewed.isNone)).2.read src).filter fun m => !m.last_viewed.isNone)).2.read (h.alloc ((h.read src).filter fun m => m.last_viewed.isNone)).1) k).2.1 ((shuffleRandomHV g ((h.alloc ((h.read src).filter fun m => m.last_viewed.isNone)).2.alloc (((h.alloc ((h.read src).filter fun m => m.last_viewed.isNone)).2.read src).filter fun m => !m.last_viewed.isNone)).2 (((h.alloc ((h.read src).filter fun m => m.last_viewed.isNone)).2.alloc (((h.alloc ((h.read src).filter fun m => m.last_viewed.isNone)).2.read src).filter fun m => !m.last_viewed.isNone)).2.read (h.alloc ((h.read src).filter fun m => m.last_viewed.isNone)).1) k).2.1.read ((h.alloc ((h.read src).filter fun m => m.last_viewed.isNone)).2.alloc (((h.alloc ((h.read src).filter fun m => m.last_viewed.isNone)).2.read src).filter fun m => !m.last_viewed.isNone)).1) (shuffleRandomHV g ((h.alloc ((h.read src).filter fun m => m.last_viewed.isNone)).2.alloc (((h.alloc ((h.read src).filter fun m => m.last_viewed.isNone)).2.read src).filter fun m => !m.last_viewed.isNone)).2 (((h.alloc ((h.read src).filter fun m => m.last_viewed.isNone)).2.alloc (((h.alloc ((h.read src).filter fun m => m.last_viewed.isNone)).2.read src).filter fun m => !m.last_viewed.isNone)).2.read (h.alloc ((h.read src).filter fun m => m.last_viewed.isNone)).1) k).2.2).2.1.read (shuffleRandomHV g ((h.alloc ((h.read src).filter fun m => m.last_viewed.isNone)).2.alloc (((h.alloc ((h.read src).filter fun m => m.last_viewed.isNone)).2.read src).filter fun m => !m.last_viewed.isNone)).2 (((h.alloc ((h.read src).filter fun m => m.last_viewed.isNone)).2.alloc (((h.alloc ((h.read src).filter fun m => m.last_viewed.isNone)).2.read src).filter fun m => !m.last_viewed.isNone)).2.read (h.alloc ((h.read src).filter fun m => m.last_viewed.isNone)).1) k).1 ++ (shuffleRandomHV g (shuffleRandomHV g ((h.alloc ((h.read src).filter fun m => m.last_viewed.isNone)).2.alloc (((h.alloc ((h.read src).filter fun m => m.last_viewed.isNone)).2.read src).filter fun m => !m.last_viewed.isNone)).2 (((h.alloc ((h.read src).filter fun m => m.last_viewed.isNone)).2.alloc (((h.alloc ((h.read src).filter fun m => m.last_viewed.isNone)).2.read src).filter fun m => !m.last_viewed.isNone)).2.read (h.alloc ((h.read src).filter fun m => m.last_viewed.isNone)).1) k).2.1 ((shuffleRandomHV g ((h.alloc ((h.read src).filter fun m => m.last_viewed.isNone)).2.alloc (((h.alloc ((h.read src).filter fun m => m.last_viewed.isNone)).2.read src).filter fun m => !m.last_viewed.isNone)).2 (((h.alloc ((h.read src).filter fun m => m.last_viewed.isNone)).2.alloc (((h.alloc ((h.read src).filter fun m => m.last_viewed.isNone)).2.read src).filter fun m => !m.last_viewed.isNone)).2.read (h.alloc ((h.read src).filter fun m => m.last_viewed.isNone)).1) k).2.1.read ((h.alloc ((h.read src).filter fun m => m.last_viewed.isNone)).2.alloc (((h.alloc ((h.read src).filter fun m => m.last_viewed.isNone)).2.read src).filter fun m => !m.last_viewed.isNone)).1) (shuffleRandomHV g ((h.alloc ((h.read src).filter fun m => m.last_viewed.isNone)).2.alloc (((h.alloc ((h.read src).filter fun m => m.last_viewed.isNone)).2.read src).filter fun m => !m.last_viewed.isNone)).2 (((h.alloc ((h.read src).filter fun m => m.last_viewed.isNone)).2.alloc (((h.alloc ((h.read src).filter fun m => m.last_viewed.isNone)).2.read src).filter fun m => !m.last_viewed.isNone)).2.read (h.alloc ((h.read src).filter fun m => m.last_viewed.isNone)).1) k).2.2).2.1.read (shuffleRandomHV g (shuffleRandomHV g ((h.alloc ((h.read src).filter fun m => m.last_viewed.isNone)).2.alloc (((h.alloc ((h.read src).filter fun m => m.last_viewed.isNone)).2.read src).filter fun m => !m.last_viewed.isNone)).2 (((h.alloc ((h.read src).filter fun m => m.last_viewed.isNone)).2.alloc (((h.alloc ((h.read src).filter fun m => m.last_viewed.isNone)).2.read src).filter fun m => !m.last_viewed.isNone)).2.read (h.alloc ((h.read src).filter fun m => m.last_viewed.isNone)).1) k).2.1 ((shuffleRandomHV g ((h.alloc ((h.read src).filter fun m => m.last_viewed.isNone)).2.alloc (((h.alloc ((h.read src).filter fun m => m.last_viewed.isNone)).2.read src).filter fun m => !m.last_viewed.isNone)).2 (((h.alloc ((h.read src).filter fun m => m.last_viewed.isNone)).2.alloc (((h.alloc ((h.read src).filter fun m => m.last_viewed.isNone)).2.read src).filter fun m => !m.last_viewed.isNone)).2.read (h.alloc ((h.read src).filter fun m => m.last_viewed.isNone)).1) k).2.1.read ((h.alloc ((h.read src).filter fun m => m.last_viewed.isNone)).2.alloc (((h.alloc ((h.read src).filter fun m => m.last_viewed.isNone)).2.read src).filter fun m => !m.last_viewed.isNone)).1) (shuffleRandomHV g ((h.alloc ((h.read src).filter fun m => m.last_viewed.isNone)).2.alloc (((h.alloc ((h.read src).filter fun m => m.last_viewed.isNone)).2.read src).filter fun m => !m.last_viewed.isNone)).2 (((h.alloc ((h.read src).filter fun m => m.last_viewed.isNone)).2.alloc (((h.alloc ((h.read src).filter fun m => m.last_viewed.isNone)).2.read src).filter fun m => !m.last_viewed.isNone)).2.read (h.alloc ((h.read src).filter fun m => m.last_viewed.isNone)).1) k).2.2).1)).1
        = (prioritizeUnviewed g k (h.read src)).1
    rw [read_alloc_self (shuffleRandomHV g (shuffleRandomHV g ((h.alloc ((h.read src).filter fun m => m.last_viewed.isNone)).2.alloc (((h.alloc ((h.read src).filter fun m => m.last_viewed.isNone)).2.read src).filter fun m => !m.last_viewed.isNone)).2 (((h.alloc ((h.read src).filter fun m => m.last_viewed.isNone)).2.alloc (((h.alloc ((h.read src).filter fun m => m.last_viewed.isNone)).2.read src).filter fun m => !m.last_viewed.isNone)).2.read (h.alloc ((h.read src).filter fun m => m.last_viewed.isNone)).1) k).2.1 ((shuffleRandomHV g ((h.alloc ((h.read src).filter fun m => m.last_viewed.isNone)).2.alloc (((h.alloc ((h.read src).filter fun m => m.last_viewed.isNone)).2.read src).filter fun m => !m.last_viewed.isNone)).2 (((h.alloc ((h.read src).filter fun m => m.last_viewed.isNone)).2.alloc (((h.alloc ((h.read src).filter fun m => m.last_viewed.isNone)).2.read src).filter fun m => !m.last_viewed.isNone)).2.read (h.alloc ((h.read src).filter fun m => m.last_viewed.isNone)).1) k).2.1.read ((h.alloc ((h.read src).filter fun m => m.last_viewed.isNone)).2.alloc (((h.alloc ((h.read src).filter fun m => m.last_viewed.isNone)).2.read src).filter fun m => !m.last_viewed.isNone)).1) (shuffleRandomHV g ((h.alloc ((h.read src).filter fun m => m.last_viewed.isNone)).2.alloc (((h.alloc ((h.read src).filter fun m => m.last_viewed.isNone)).2.read src).filter fun m => !m.last_viewed.isNone)).2 (((h.alloc ((h.read src).filter fun m => m.last_viewed.isNone)).2.alloc (((h.alloc ((h.read src).filter fun m => m.last_viewed.isNone)).2.read src).filter fun m => !m.last_viewed.isNone)).2.read (h.alloc ((h.read src).filter fun m => m.last_viewed.isNone)).1) k).2.2).2.1 ((shuffleRandomHV g (shuffleRandomHV g ((h.alloc ((h.read src).filter fun m => m.last_viewed.isNone)).2.alloc (((h.alloc ((h.read src).filter fun m => m.last_viewed.isNone)).2.read src).filter fun m => !m.last_viewed.isNone)).2 (((h.alloc ((h.read src).filter fun m => m.last_viewed.isNone)).2.alloc (((h.alloc ((h.read src).filter fun m => m.last_viewed.isNone)).2.read src).filter fun m => !m.last_viewed.isNone)).2.read (h.alloc ((h.read src).filter fun m => m.last_viewed.isNone)).1) k).2.1 ((shuffleRandomHV g ((h.alloc ((h.read src).filter fun m => m.last_viewed.isNone)).2.alloc (((h.alloc ((h.read src).filter fun m => m.last_viewed.isNone)).2.read src).filter fun m => !m.last_viewed.isNone)).2 (((h.alloc ((h.read src).filter fun m => m.last_viewed.isNone)).2.alloc (((h.alloc ((h.read src).filter fun m => m.last_viewed.isNone)).2.read src).filter fun m => !m.last_viewed.isNone)).2.read (h.alloc ((h.read src).filter fun m => m.last_viewed.isNone)).1) k).2.1.read ((h.alloc ((h.read src).filter fun m => m.last_viewed.isNone)).2.alloc (((h.alloc ((h.read src).filter fun m => m.last_viewed.isNone)).2.read src).filter fun m => !m.last_viewed.isNone)).1) (shuffleRandomHV g ((h.alloc ((h.read src).filter fun m => m.last_viewed.isNone)).2.alloc (((h.alloc ((h.read src).filter fun m => m.last_viewed.isNone)).2.read src).filter fun m => !m.last_viewed.isNone)).2 (((h.alloc ((h.read src).filter fun m => m.last_viewed.isNone)).2.alloc (((h.alloc ((h.read src).filter fun m => m.last_viewed.isNone)).2.read src).filter fun m => !m.last_viewed.isNone)).2.read (h.alloc ((h.read src).filter fun m => m.last_viewed.isNone)).1) k).2.2).2.1.read (shuffleRandomHV g ((h.alloc ((h.read src).filter fun m => m.last_viewed.isNone)).2.alloc (((h.alloc ((h.read src).filter fun m => m.last_viewed.isNone)).2.read src).filter fun m => !m.last_viewed.isNone)).2 (((h.alloc ((h.read src).filter fun m => m.last_viewed.isNone)).2.alloc (((h.alloc ((h.read src).filter fun m => m.last_viewed.isNone)).2.read src).filter fun m => !m.last_viewed.isNone)).2.read (h.alloc ((h.read src).filter fun m => m.last_viewed.isNone)).1) k).1 ++ (shuffleRandomHV g (shuffleRandomHV g ((h.alloc ((h.read src).filter fun m => m.last_viewed.isNone)).2.alloc (((h.alloc ((h.read src).filter fun m => m.last_viewed.isNone)).2.read src).filter fun m => !m.last_viewed.isNone)).2 (((h.alloc ((h.read src).filter fun m => m.last_viewed.isNone)).2.alloc (((h.alloc ((h.read src).filter fun m => m.last_viewed.isNone)).2.read src).filter fun m => !m.last_viewed.isNone)).2.read (h.alloc ((h.read src).filter fun m => m.last_viewed.isNone)).1) k).2.1 ((shuffleRandomHV g ((h.alloc ((h.read src).filter fun m => m.last_viewed.isNone)).2.alloc (((h.alloc ((h.read src).filter fun m => m.last_viewed.isNone)).2.read src).filter fun m => !m.last_viewed.isNone)).2 (((h.alloc ((h.read src).filter fun m => m.last_viewed.isNone)).2.alloc (((h.alloc ((h.read src).filter fun m => m.last_viewed.isNone)).2.read src).filter fun m => !m.last_viewed.isNone)).2.read (h.alloc ((h.read src).filter fun m => m.last_viewed.isNone)).1) k).2.1.read ((h.alloc ((h.read src).filter fun m => m.last_viewed.isNone)).2.alloc (((h.alloc ((h.read src).filter fun m => m.last_viewed.isNone)).2.read src).filter fun m => !m.last_viewed.isNone)).1) (shuffleRandomHV g ((h.alloc ((h.read src).filter fun m => m.last_viewed.isNone)).2.alloc (((h.alloc ((h.read src).filter fun m => m.last_viewed.isNone)).2.read src).filter fun m => !m.last_viewed.isNone)).2 (((h.alloc ((h.read src).filter fun m => m.last_viewed.isNone)).2.alloc (((h.alloc ((h.read src).filter fun m => m.last_viewed.isNone)).2.read src).filter fun m => !m.last_viewed.isNone)).2.read (h.alloc ((h.read src).filter fun m => m.last_viewed.isNone)).1) k).2.2).2.1.read (shuffleRandomHV g (shuffleRandomHV g ((h.alloc ((h.read src).filter fun m => m.last_viewed.isNone)).2.alloc (((h.alloc ((h.read src).filter fun m => m.last_viewed.isNone)).2.read src).filter fun m => !m.last_viewed.isNone)).2 (((h.alloc ((h.read src).filter fun m => m.last_viewed.isNone)).2.alloc (((h.alloc ((h.read src).filter fun m => m.last_viewed.isNone)).2.read src).filter fun m => !m.last_viewed.isNone)).2.read (h.alloc ((h.read src).filter fun m => m.last_viewed.isNone)).1) k).2.1 ((shuffleRandomHV g ((h.alloc ((h.read src).filter fun m => m.last_viewed.isNone)).2.alloc (((h.alloc ((h.read src).filter fun m => m.last_viewed.isNone)).2.read src).filter fun m => !m.last_viewed.isNone)).2 (((h.alloc ((h.read src).filter fun m => m.last_viewed.isNone)).2.alloc (((h.alloc ((h.read src).filter fun m => m.last_viewed.isNone)).2.read src).filter fun m => !m.last_viewed.isNone)).2.read (h.alloc ((h.read src).filter fun m => m.last_viewed.isNone)).1) k).2.1.read ((h.alloc ((h.read src).filter fun m => m.last_viewed.isNone)).2.alloc (((h.alloc ((h.read src).filter fun m => m.last_viewed.isNone)).2.read src).filter fun m => !m.last_viewed.isNone)).1) (shuffleRandomHV g ((h.alloc ((h.read src).filter fun m => m.last_viewed.isNone)).2.alloc (((h.alloc ((h.read src).filter fun m => m.last_viewed.isNone)).2.read src).filter fun m => !m.last_viewed.isNone)).2 (((h.alloc ((h.read src).filter fun m => m.last_viewed.isNone)).2.alloc (((h.alloc ((h.read src).filter fun m => m.last_viewed.isNone)).2.read src).filter fun m => !m.last_viewed.isNone)).2.read (h.alloc ((h.read src).filter fun m => m.last_viewed.isNone)).1) k).2.2).1)]
    rw [e_u1read]
    rw [hsvA.1]
    rw [hfrsv.2 (shuffleRandomHV g ((h.alloc ((h.read src).filter fun m => m.last_viewed.isNone)).2.alloc (((h.alloc ((h.read src).filter fun m => m.last_viewed.isNone)).2.read src).filter fun m => !m.last_viewed.isNone)).2 ((h.read src).filter fun m => m.last_viewed.isNone) k).1 e_su1lt]
    rw [hsuA.1]
    rw [e_v1read]
    rw [hsuA.2.1]
    rw [husrc]
    rfl
  · show (shuffleRandomHV g (shuffleRandomHV g ((h.alloc ((h.read src).filter fun m => m.last_viewed.isNone)).2.alloc (((h.alloc ((h.read src).filter fun m => m.last_viewed.isNone)).2.read src).filter fun m => !m.last_viewed.isNone)).2 (((h.alloc ((h.read src).filter fun m => m.last_viewed.isNone)).2.alloc (((h.alloc ((h.read src).filter fun m => m.last_viewed.isNone)).2.read src).filter fun m => !m.last_viewed.isNone)).2.read (h.alloc ((h.read src).filter fun m => m.last_viewed.isNone)).1) k).2.1 ((shuffleRandomHV g ((h.alloc ((h.read src).filter fun m => m.last_viewed.isNone)).2.alloc (((h.alloc ((h.read src).filter fun m => m.last_viewed.isNone)).2.read src).filter fun m => !m.last_viewed.isNone)).2 (((h.alloc ((h.read src).filter fun m => m.last_viewed.isNone)).2.alloc (((h.alloc ((h.read src).filter fun m => m.last_viewed.isNone)).2.read src).filter fun m => !m.last_viewed.isNone)).2.read (h.alloc ((h.read src).filter fun m => m.last_viewed.isNone)).1) k).2.1.read ((h.alloc ((h.read src).filter fun m => m.last_viewed.isNone)).2.alloc (((h.alloc ((h.read src).filter fun m => m.last_viewed.isNone)).2.read src).filter fun m => !m.last_viewed.isNone)).1) (shuffleRandomHV g ((h.alloc ((h.read src).filter fun m => m.last_viewed.isNone)).2.alloc (((h.alloc ((h.read src).filter fun m => m.last_viewed.isNone)).2.read src).filter fun m => !m.last_viewed.isNone)).2 (((h.alloc ((h.read src).filter fun m => m.last_viewed.isNone)).2.alloc (((h.alloc ((h.read src).filter fun m => m.last_viewed.isNone)).2.read src).filter fun m => !m.last_viewed.isNone)).2.read (h.alloc ((h.read src).filter fun m => m.last_viewed.isNone)).1) k).2.2).2.2 = (prioritizeUnviewed g k (h.read src)).2
    rw [e_u1read]
    rw [hsvA.2.1]
    rw [e_v1read]
    rw [hsuA.2.1]
    rw [husrc]
    rfl

/-- Heap-level `prioritizeOldestFirst` computes the same ordered list and
draw counter as the pure `prioritizeOldestFirst` on the source cell's
contents. -/
theorem prioritizeOldestFirstH_agree (g : Nat → Nat) (h : Heap) (src k : Nat)
    (hsrc : src < h.cells.length) :
    (prioritizeOldestFirstH g h src k).2.1.read (prioritizeOldestFirstH g h src k).1
        = (prioritizeOldestFirst g k (h.read src)).1 ∧
    (prioritizeOldestFirstH g h src k).2.2
        = (prioritizeOldestFirst g k (h.read src)).2 := by
  have husrc : (h.alloc ((h.read src).filter fun m => m.last_viewed.isNone)).2.read src = h.read src :=
    (alloc_frameOn h ((h.read src).filter fun m => m.last_viewed.isNone) h.cells.length (Nat.le_refl _)).2 src hsrc
  have e_n1lt : (h.alloc ((h.read src).filter fun m => m.last_viewed.isNone)).1 < (h.alloc ((h.read src).filter fun m => m.last_viewed.isNone)).2.cells.length := by
    rw [alloc_length]
    exact Nat.lt_succ_of_le (Nat.le_refl _)
  have e_v1lt : ((h.alloc ((h.read src).filter fun m => m.last_viewed.isNone)).2.alloc (((h.alloc ((h.read src).filter fun m => m.last_viewed.isNone)).2.read src).filter fun m => !m.last_viewed.isNone)).1 < ((h.alloc ((h.read src).filter fun m => m.last_viewed.isNone)).2.alloc (((h.alloc ((h.read src).filter fun m => m.last_viewed.isNone)).2.read src).filter fun m => !m.last_viewed.isNone)).2.cells.length := by
    rw [alloc_length]
    exact Nat.lt_succ_of_le (Nat.le_refl _)
  have e_v1read0 : ((h.alloc ((h.read src).filter fun m => m.last_viewed.isNone)).2.alloc (((h.alloc ((h.read src).filter fun m => m.last_viewed.isNone)).2.read src).filter fun m => !m.last_viewed.isNone)).2.read ((h.alloc ((h.read src).filter fun m => m.last_viewed.isNone)).2.alloc (((h.alloc ((h.read src).filter fun m => m.last_viewed.isNone)).2.read src).filter fun m => !m.last_viewed.isNone)).1 = (((h.alloc ((h.read src).filter fun m => m.last_viewed.isNone)).2.read src).filter fun m => !m.last_viewed.isNone) := read_alloc_self (h.alloc ((h.read src).filter fun m => m.last_viewed.isNone)).2 (((h.alloc ((h.read src).filter fun m => m.last_viewed.isNone)).2.read src).filter fun m => !m.last_viewed.isNone)
  have e_h1_n1read : (((h.alloc ((h.read src).filter fun m => m.last_viewed.isNone)).2.alloc (((h.alloc ((h.read src).filter fun m => m.last_viewed.isNone)).2.read src).filter fun m => !m.last_viewed.isNone)).2.write ((h.alloc ((h.read src).filter fun m => m.last_viewed.isNone)).2.alloc (((h.alloc ((h.read src).filter fun m => m.last_viewed.isNone)).2.read src).filter fun m => !m.last_viewed.isNone)).1 ((((h.alloc ((h.read src).filter fun m => m.last_viewed.isNone)).2.alloc (((h.alloc ((h.read src).filter fun m => m.last_viewed.isNone)).2.read src).filter fun m => !m.last_viewed.isNone)).2.read ((h.alloc ((h.read src).filter fun m => m.last_viewed.isNone)).2.alloc (((h.alloc ((h.read src).filter fun m => m.last_viewed.isNone)).2.read src).filter fun m => !m.last_viewed.isNone)).1).insertionSort (fun a b => compareDates a.last_viewed b.last_viewed ≤ 0))).read (h.alloc ((h.read src).filter fun m => m.last_viewed.isNone)).1 = ((h.read src).filter fun m => m.last_viewed.isNone) := by
    rw [(write_frameOn ((h.alloc ((h.read src).filter fun m => m.last_viewed.isNone)).2.alloc (((h.alloc ((h.read src).filter fun m => m.last_viewed.isNone)).2.read src).filter fun m => !m.last_viewed.isNone)).2 ((h.alloc ((h.read src).filter fun m => m.last_viewed.isNone)).2.alloc (((h.alloc ((h.read src).filter fun m => m.last_viewed.isNone)).2.read src).filter fun m => !m.last_viewed.isNone)).1 ((((h.alloc ((h.read src).filter fun m => m.last_viewed.isNone)).2.alloc (((h.alloc ((h.read src).filter fun m => m.last_viewed.isNone)).2.read src).filter fun m => !m.last_viewed.isNone)).2.read ((h.alloc ((h.read src).filter fun m => m.last_viewed.isNone)).2.alloc (((h.alloc ((h.read src).filter fun m => m.last_viewed.isNone)).2.read src).filter fun m => !m.last_viewed.isNone)).1).insertionSort (fun a b => compareDates a.last_viewed b.last_viewed ≤ 0)) ((h.alloc ((h.read src).filter fun m => m.last_viewed.isNone)).2.cells.length)
      (by simp only [alloc_length]; omega) (Nat.le_refl _)).2 (h.alloc ((h.read src).filter fun m => m.last_viewed.isNone)).1 e_n1lt]
    rw [(alloc_frameOn (h.alloc ((h.read src).filter fun m => m.last_viewed.isNone)).2 (((h.alloc ((h.read src).filter fun m => m.last_viewed.isNone)).2.read src).filter fun m => !m.last_viewed.isNone) ((h.alloc ((h.read src).filter fun m => m.last_viewed.isNone)).2.cells.length) (Nat.le_refl _)).2 (h.alloc ((h.read src).filter fun m => m.last_viewed.isNone)).1 e_n1lt]
    exact read_alloc_self h ((h.read src).filter fun m => m.last_viewed.isNone)
  have hsnvA := shuffleRandomHV_agree g (((h.alloc ((h.read src).filter fun m => m.last_viewed.isNone)).2.alloc (((h.alloc ((h.read src).filter fun m => m.last_viewed.isNone)).2.read src).filter fun m => !m.last_viewed.isNone)).2.write ((h.alloc ((h.read src).filter fun m => m.last_viewed.isNone)).2.alloc (((h.alloc ((h.read src).filter fun m => m.last_viewed.isNone)).2.read src).filter fun m => !m.last_viewed.isNone)).1 ((((h.alloc ((h.read src).filter fun m => m.last_viewed.isNone)).2.alloc (((h.alloc ((h.read src).filter fun m => m.last_viewed.isNone)).2.read src).filter fun m => !m.last_viewed.isNone)).2.read ((h.alloc ((h.read src).filter fun m => m.last_viewed.isNone)).2.alloc (((h.alloc ((h.read src).filter fun m => m.last_viewed.isNone)).2.read src).filter fun m => !m.last_viewed.isNone)).1).insertionSort (fun a b => compareDates a.last_viewed b.last_viewed ≤ 0))) ((h.read src).filter fun m => m.last_viewed.isNone) k
  have e_v1ltH1 : ((h.alloc ((h.read src).filter fun m => m.last_viewed.isNone)).2.alloc (((h.alloc ((h.read src).filter fun m => m.last_viewed.isNone)).2.read src).filter fun m => !m.last_viewed.isNone)).1 < (((h.alloc ((h.read src).filter fun m => m.last_viewed.isNone)).2.alloc (((h.alloc ((h.read src).filter fun m => m.last_viewed.isNone)).2.read src).filter fun m => !m.last_viewed.isNone)).2.write ((h.alloc ((h.read src).filter fun m => m.last_viewed.isNone)).2.alloc (((h.alloc ((h.read src).filter fun m => m.last_viewed.isNone)).2.read src).filter fun m => !m.last_viewed.isNone)).1 ((((h.alloc ((h.read src).filter fun m => m.last_viewed.isNone)).2.alloc (((h.alloc ((h.read src).filter fun m => m.last_viewed.isNone)).2.read src).filter fun m => !m.last_viewed.isNone)).2.read ((h.alloc ((h.read src).filter fun m => m.last_viewed.isNone)).2.alloc (((h.alloc ((h.read src).filter fun m => m.last_viewed.isNone)).2.read src).filter fun m => !m.last_viewed.isNone)).1).insertionSort (fun a b => compareDates a.last_viewed b.last_viewed ≤ 0))).cells.length := by
    rw [write_length]
    exact e_v1lt
  refine ⟨?_, ?_⟩
  · show ((shuffleRandomHV g (((h.alloc ((h.read src).filter fun m => m.last_viewed.isNone)).2.alloc (((h.alloc ((h.read src).filter fun m => m.last_viewed.isNone)).2.read src).filter fun m => !m.last_viewed.isNone)).2.write ((h.alloc ((h.read src).filter fun m => m.last_viewed.isNone)).2.alloc (((h.alloc ((h.read src).filter fun m => m.last_viewed.isNone)).2.read src).filter fun m => !m.last_viewed.isNone)).1 ((((h.alloc ((h.read src).filter fun m => m.last_viewed.isNone)).2.alloc (((h.alloc ((h.read src).filter fun m => m.last_viewed.isNone)).2.read src).filter fun m => !m.last_viewed.isNone)).2.read ((h.alloc ((h.read src).filter fun m => m.last_viewed.isNone)).2.alloc (((h.alloc ((h.read src).filter fun m => m.last_viewed.isNone)).2.read src).filter fun m => !m.last_viewed.isNone)).1).insertionSort (fun a b => compareDates a.last_viewed b.last_viewed ≤ 0))) ((((h.alloc ((h.read src).filter fun m => m.last_viewed.isNone)).2.alloc (((h.alloc ((h.read src).filter fun m => m.last_viewed.isNone)).2.read src).filter fun m => !m.last_viewed.isNone)).2.write ((h.alloc ((h.read src).filter fun m => m.last_viewed.isNone)).2.alloc (((h.alloc ((h.read src).filter fun m => m.last_viewed.isNone)).2.read src).filter fun m => !m.last_viewed.isNone)).1 ((((h.alloc ((h.read src).filter fun m => m.last_viewed.isNone)).2.alloc (((h.alloc ((h.read src).filter fun m => m.last_viewed.isNone)).2.read src).filter fun m => !m.last_viewed.isNone)).2.read ((h.alloc ((h.read src).filter fun m => m.last_viewed.isNone)).2.alloc (((h.alloc ((h.read src).filter fun m => m.last_viewed.isNone)).2.read src).filter fun m => !m.last_viewed.isNone)).1).insertionSort (fun a b => compareDates a.last_viewed b.last_viewed ≤ 0))).read (h.alloc ((h.read src).filter fun m => m.last_viewed.isNone)).1) k).2.1.alloc ((shuffleRandomHV g (((h.alloc ((h.read src).filter fun m => m.last_viewed.isNone)).2.alloc (((h.alloc ((h.read src).filter fun m => m.last_viewed.isNone)).2.read src).filter fun m => !m.last_viewed.isNone)).2.write ((h.alloc ((h.read src).filter fun m => m.last_viewed.isNone)).2.alloc (((h.alloc ((h.read src).filter fun m => m.last_viewed.isNone)).2.read src).filter fun m => !m.last_viewed.isNone)).1 ((((h.alloc ((h.read src).filter fun m => m.last_viewed.isNone)).2.alloc (((h.alloc ((h.read src).filter fun m => m.last_viewed.isNone)).2.read src).filter fun m => !m.last_viewed.isNone)).2.read ((h.alloc ((h.read src).filter fun m => m.last_viewed.isNone)).2.alloc (((h.alloc ((h.read src).filter fun m => m.last_viewed.isNone)).2.read src).filter fun m => !m.last_viewed.isNone)).1).insertionSort (fun a b => compareDates a.last_viewed b.last_viewed ≤ 0))) ((((h.alloc ((h.read src).filter fun m => m.last_viewed.isNone)).2.alloc (((h.alloc ((h.read src).filter fun m => m.last_viewed.isNone)).2.read src).filter fun m => !m.last_viewed.isNone)).2.write ((h.alloc ((h.read src).filter fun m => m.last_viewed.isNone)).2.alloc (((h.alloc ((h.read src).filter fun m => m.last_viewed.isNone)).2.read src).filter fun m => !m.last_viewed.isNone)).1 ((((h.alloc ((h.read src).filter fun m => m.last_viewed.isNone)).2.alloc (((h.alloc ((h.read src).filter fun m => m.last_viewed.isNone)).2.read src).filter fun m => !m.last_viewed.isNone)).2.read ((h.alloc ((h.read src).filter fun m => m.last_viewed.isNone)).2.alloc (((h.alloc ((h.read src).filter fun m => m.last_viewed.isNone)).2.read src).filter fun m => !m.last_viewed.isNone)).1).insertionSort (fun a b => compareDates a.last_viewed b.last_viewed ≤ 0))).read (h.alloc ((h.read src).filter fun m => m.last_viewed.isNone)).1) k).2.1.read (shuffleRandomHV g (((h.alloc ((h.read src).filter fun m => m.last_viewed.isNone)).2.alloc (((h.alloc ((h.read src).filter fun m => m.last_viewed.isNone)).2.read src).filter fun m => !m.last_viewed.isNone)).2.write ((h.alloc ((h.read src).filter fun m => m.last_viewed.isNone)).2.alloc (((h.alloc ((h.read src).filter fun m => m.last_viewed.isNone)).2.read src).filter fun m => !m.last_viewed.isNone)).1 ((((h.alloc ((h.read src).filter fun m => m.last_viewed.isNone)).2.alloc (((h.alloc ((h.read src).filter fun m => m.last_viewed.isNone)).2.read src).filter fun m => !m.last_viewed.isNone)).2.read ((h.alloc ((h.read src).filter fun m => m.last_viewed.isNone)).2.alloc (((h.alloc ((h.read src).filter fun m => m.last_viewed.isNone)).2.read src).filter fun m => !m.last_viewed.isNone)).1).insertionSort (fun a b => compareDates a.last_viewed b.last_viewed ≤ 0))) ((((h.alloc ((h.read src).filter fun m => m.last_viewed.isNone)).2.alloc (((h.alloc ((h.read src).filter fun m => m.last_viewed.isNone)).2.read src).filter fun m => !m.last_viewed.isNone)).2.write ((h.alloc ((h.read src).filter fun m => m.last_viewed.isNone)).2.alloc (((h.alloc ((h.read src).filter fun m => m.last_viewed.isNone)).2.read src).filter fun m => !m.last_viewed.isNone)).1 ((((h.alloc ((h.read src).filter fun m => m.last_viewed.isNone)).2.alloc (((h.alloc ((h.read src).filter fun m => m.last_viewed.isNone)).2.read src).filter fun m => !m.last_viewed.isNone)).2.read ((h.alloc ((h.read src).filter fun m => m.last_viewed.isNone)).2.alloc (((h.alloc ((h.read src).filter fun m => m.last_viewed.isNone)).2.read src).filter fun m => !m.last_viewed.isNone)).1).insertionSort (fun a b => compareDates a.last_viewed b.last_viewed ≤ 0))).read (h.alloc ((h.read src).filter fun m => m.last_viewed.isNone)).1) k).1 ++ (shuffleRandomHV g (((h.alloc ((h.read src).filter fun m => m.last_viewed.isNone)).2.alloc (((h.alloc ((h.read src).filter fun m => m.last_viewed.isNone)).2.read src).filter fun m => !m.last_viewed.isNone)).2.write ((h.alloc ((h.read src).filter fun m => m.last_viewed.isNone)).2.alloc (((h.alloc ((h.read src).filter fun m => m.last_viewed.isNone)).2.read src).filter fun m => !m.last_viewed.isNone)).1 ((((h.alloc ((h.read src).filter fun m => m.last_viewed.isNone)).2.alloc (((h.alloc ((h.read src).filter fun m => m.last_viewed.isNone)).2.read src).filter fun m => !m.last_viewed.isNone)).2.read ((h.alloc ((h.read src).filter fun m => m.last_viewed.isNone)).2.alloc (((h.alloc ((h.read src).filter fun m => m.last_viewed.isNone)).2.read src).filter fun m => !m.last_viewed.isNone)).1).insertionSort (fun a b => compareDates a.last_viewed b.last_viewed ≤ 0))) ((((h.alloc ((h.read src).filter fun m => m.last_viewed.isNone)).2.alloc (((h.alloc ((h.read src).filter fun m => m.last_viewed.isNone)).2.read src).filter fun m => !m.last_viewed.isNone)).2.write ((h.alloc ((h.read src).filter fun m => m.last_viewed.isNone)).2.alloc (((h.alloc ((h.read src).filter fun m => m.last_viewed.isNone)).2.read src).filter fun m => !m.last_viewed.isNone)).1 ((((h.alloc ((h.read src).filter fun m => m.last_viewed.isNone)).2.alloc (((h.alloc ((h.read src).filter fun m => m.last_viewed.isNone)).2.read src).filter fun m => !m.last_viewed.isNone)).2.read ((h.alloc ((h.read src).filter fun m => m.last_viewed.isNone)).2.alloc (((h.alloc ((h.read src).filter fun m => m.last_viewed.isNone)).2.read src).filter fun m => !m.last_viewed.isNone)).1).insertionSort (fun a b => compareDates a.last_viewed b.last_viewed ≤ 0))).read (h.alloc ((h.read src).filter fun m => m.last_viewed.isNone)).1) k).2.1.read ((h.alloc ((h.read src).filter fun m => m.last_viewed.isNone)).2.alloc (((h.alloc ((h.read src).filter fun m => m.last_viewed.isNone)).2.read src).filter fun m => !m.last_viewed.isNone)).1)).2.read ((shuffleRandomHV g (((h.alloc ((h.read src).filter fun m => m.last_viewed.isNone)).2.alloc (((h.alloc ((h.read src).filter fun m => m.last_viewed.isNone)).2.read src).filter fun m => !m.last_viewed.isNone)).2.write ((h.alloc ((h.read src).filter fun m => m.last_viewed.isNone)).2.alloc (((h.alloc ((h.read src).filter fun m => m.last_viewed.isNone)).2.read src).filter fun m => !m.last_viewed.isNone)).1 ((((h.alloc ((h.read src).filter fun m => m.last_viewed.isNone)).2.alloc (((h.alloc ((h.read src).filter fun m => m.last_viewed.isNone)).2.read src).filter fun m => !m.last_viewed.isNone)).2.read ((h.alloc ((h.read src).filter fun m => m.last_viewed.isNone)).2.alloc (((h.alloc ((h.read src).filter fun m => m.last_viewed.isNone)).2.read src).filter fun m => !m.last_viewed.isNone)).1).insertionSort (fun a b => compareDates a.last_viewed b.last_viewed ≤ 0))) ((((h.alloc ((h.read src).filter fun m => m.last_viewed.isNone)).2.alloc (((h.alloc ((h.read src).filter fun m => m.last_viewed.isNone)).2.read src).filter fun m => !m.last_viewed.isNone)).2.write ((h.alloc ((h.read src).filter fun m => m.last_viewed.isNone)).2.alloc (((h.alloc ((h.read src).filter fun m => m.last_viewed.isNone)).2.read src).filter fun m => !m.last_viewed.isNone)).1 ((((h.alloc ((h.read src).filter fun m => m.last_viewed.isNone)).2.alloc (((h.alloc ((h.read src).filter fun m => m.last_viewed.isNone)).2.read src).filter fun m => !m.last_viewed.isNone)).2.read ((h.alloc ((h.read src).filter fun m => m.last_viewed.isNone)).2.alloc (((h.alloc ((h.read src).filter fun m => m.last_viewed.isNone)).2.read src).filter fun m => !m.last_viewed.isNone)).1).insertionSort (fun a b => compareDates a.last_viewed b.last_viewed ≤ 0))).read (h.alloc ((h.read src).filter fun m => m.last_viewed.isNone)).1) k).2.1.alloc ((shuffleRandomHV g (((h.alloc ((h.read src).filter fun m => m.last_viewed.isNone)).2.alloc (((h.alloc ((h.read src).filter fun m => m.last_viewed.isNone)).2.read src).filter fun m => !m.last_viewed.isNone)).2.write ((h.alloc ((h.read src).filter fun m => m.last_viewed.isNone)).2.alloc (((h.alloc ((h.read src).filter fun m => m.last_viewed.isNone)).2.read src).filter fun m => !m.last_viewed.isNone)).1 ((((h.alloc ((h.read src).filter fun m => m.last_viewed.isNone)).2.alloc (((h.alloc ((h.read src).filter fun m => m.last_viewed.isNone)).2.read src).filter fun m => !m.last_viewed.isNone)).2.read ((h.alloc ((h.read src).filter fun m => m.last_viewed.isNone)).2.alloc (((h.alloc ((h.read src).filter fun m => m.last_viewed.isNone)).2.read src).filter fun m => !m.last_viewed.isNone)).1).insertionSort (fun a b => compareDates a.last_viewed b.last_viewed ≤ 0))) ((((h.alloc ((h.read src).filter fun m => m.last_viewed.isNone)).2.alloc (((h.alloc ((h.read src).filter fun m => m.last_viewed.isNone)).2.read src).filter fun m => !m.last_viewed.isNone)).2.write ((h.alloc ((h.read src).filter fun m => m.last_viewed.isNone)).2.alloc (((h.alloc ((h.read src).filter fun m => m.last_viewed.isNone)).2.read src).filter fun m => !m.last_viewed.isNone)).1 ((((h.alloc ((h.read src).filter fun m => m.last_viewed.isNone)).2.alloc (((h.alloc ((h.read src).filter fun m => m.last_viewed.isNone)).2.read src).filter fun m => !m.last_viewed.isNone)).2.read ((h.alloc ((h.read src).filter fun m => m.last_viewed.isNone)).2.alloc (((h.alloc ((h.read src).filter fun m => m.last_viewed.isNone)).2.read src).filter fun m => !m.last_viewed.isNone)).1).insertionSort (fun a b => compareDates a.last_viewed b.last_viewed ≤ 0))).read (h.alloc ((h.read src).filter fun m => m.last_viewed.isNone)).1) k).2.1.read (shuffleRandomHV g (((h.alloc ((h.read src).filter fun m => m.last_viewed.isNone)).2.alloc (((h.alloc ((h.read src).filter fun m => m.last_viewed.isNone)).2.read src).filter fun m => !m.last_viewed.isNone)).2.write ((h.alloc ((h.read src).filter fun m => m.last_viewed.isNone)).2.alloc (((h.alloc ((h.read src).filter fun m => m.last_viewed.isNone)).2.read src).filter fun m => !m.last_viewed.isNone)).1 ((((h.alloc ((h.read src).filter fun m => m.last_viewed.isNone)).2.alloc (((h.alloc ((h.read src).filter fun m => m.last_viewed.isNone)).2.read src).filter fun m => !m.last_viewed.isNone)).2.read ((h.alloc ((h.read src).filter fun m => m.last_viewed.isNone)).2.alloc (((h.alloc ((h.read src).filter fun m => m.last_viewed.isNone)).2.read src).filter fun m => !m.last_viewed.isNone)).1).insertionSort (fun a b => compareDates a.last_viewed b.last_viewed ≤ 0))) ((((h.alloc ((h.read src).filter fun m => m.last_viewed.isNone)).2.alloc (((h.alloc ((h.read src).filter fun m => m.last_viewed.isNone)).2.read src).filter fun m => !m.last_viewed.isNone)).2.write ((h.alloc ((h.read src).filter fun m => m.last_viewed.isNone)).2.alloc (((h.alloc ((h.read src).filter fun m => m.last_viewed.isNone)).2.read src).filter fun m => !m.last_viewed.isNone)).1 ((((h.alloc ((h.read src).filter fun m => m.last_viewed.isNone)).2.alloc (((h.alloc ((h.read src).filter fun m => m.last_viewed.isNone)).2.read src).filter fun m => !m.last_viewed.isNone)).2.read ((h.alloc ((h.read src).filter fun m => m.last_viewed.isNone)).2.alloc (((h.alloc ((h.read src).filter fun m => m.last_viewed.isNone)).2.read src).filter fun m => !m.last_viewed.isNone)).1).insertionSort (fun a b => compareDates a.last_viewed b.last_viewed ≤ 0))).read (h.alloc ((h.read src).filter fun m => m.last_viewed.isNone)).1) k).1 ++ (shuffleRandomHV g (((h.alloc ((h.read src).filter fun m => m.last_viewed.isNone)).2.alloc (((h.alloc ((h.read src).filter fun m => m.last_viewed.isNone)).2.read src).filter fun m => !m.last_viewed.isNone)).2.write ((h.alloc ((h.read src).filter fun m => m.last_viewed.isNone)).2.alloc (((h.alloc ((h.read src).filter fun m => m.last_viewed.isNone)).2.read src).filter fun m => !m.last_viewed.isNone)).1 ((((h.alloc ((h.read src).filter fun m => m.last_viewed.isNone)).2.alloc (((h.alloc ((h.read src).filter fun m => m.last_viewed.isNone)).2.read src).filter fun m => !m.last_viewed.isNone)).2.read ((h.alloc ((h.read src).filter fun m => m.last_viewed.isNone)).2.alloc (((h.alloc ((h.read src).filter fun m => m.last_viewed.isNone)).2.read src).filter fun m => !m.last_viewed.isNone)).1).insertionSort (fun a b => compareDates a.last_viewed b.last_viewed ≤ 0))) ((((h.alloc ((h.read src).filter fun m => m.last_viewed.isNone)).2.alloc (((h.alloc ((h.read src).filter fun m => m.last_viewed.isNone)).2.read src).filter fun m => !m.last_viewed.isNone)).2.write ((h.alloc ((h.read src).filter fun m => m.last_viewed.isNone)).2.alloc (((h.alloc ((h.read src).filter fun m => m.last_viewed.isNone)).2.read src).filter fun m => !m.last_viewed.isNone)).1 ((((h.alloc ((h.read src).filter fun m => m.last_viewed.isNone)).2.alloc (((h.alloc ((h.read src).filter fun m => m.last_viewed.isNone)).2.read src).filter fun m => !m.last_viewed.isNone)).2.read ((h.alloc ((h.read src).filter fun m => m.last_viewed.isNone)).2.alloc (((h.alloc ((h.read src).filter fun m => m.last_viewed.isNone)).2.read src).filter fun m => !m.last_viewed.isNone)).1).insertionSort (fun a b => compareDates a.last_viewed b.last_viewed ≤ 0))).read (h.alloc ((h.read src).filter fun m => m.last_viewed.isNone)).1) k).2.1.read ((h.alloc ((h.read src).filter fun m => m.last_viewed.isNone)).2.alloc (((h.alloc ((h.read src).filter fun m => m.last_viewed.isNone)).2.read src).filter fun m => !m.last_viewed.isNone)).1)).1
        = (prioritizeOldestFirst g k (h.read src)).1
    rw [read_alloc_self (shuffleRandomHV g (((h.alloc ((h.read src).filter fun m => m.last_viewed.isNone)).2.alloc (((h.alloc ((h.read src).filter fun m => m.last_viewed.isNone)).2.read src).filter fun m => !m.last_viewed.isNone)).2.write ((h.alloc ((h.read src).filter fun m => m.last_viewed.isNone)).2.alloc (((h.alloc ((h.read src).filter fun m => m.last_viewed.isNone)).2.read src).filter fun m => !m.last_viewed.isNone)).1 ((((h.alloc ((h.read src).filter fun m => m.last_viewed.isNone)).2.alloc (((h.alloc ((h.read src).filter fun m => m.last_viewed.isNone)).2.read src).filter fun m => !m.last_viewed.isNone)).2.read ((h.alloc ((h.read src).filter fun m => m.last_viewed.isNone)).2.alloc (((h.alloc ((h.read src).filter fun m => m.last_viewed.isNone)).2.read src).filter fun m => !m.last_viewed.isNone)).1).insertionSort (fun a b => compareDates a.last_viewed b.last_viewed ≤ 0))) ((((h.alloc ((h.read src).filter fun m => m.last_viewed.isNone)).2.alloc (((h.alloc ((h.read src).filter fun m => m.last_viewed.isNone)).2.read src).filter fun m => !m.last_viewed.isNone)).2.write ((h.alloc ((h.read src).filter fun m => m.last_viewed.isNone)).2.alloc (((h.alloc ((h.read src).filter fun m => m.last_viewed.isNone)).2.read src).filter fun m => !m.last_viewed.isNone)).1 ((((h.alloc ((h.read src).filter fun m => m.last_viewed.isNone)).2.alloc (((h.alloc ((h.read src).filter fun m => m.last_viewed.isNone)).2.read src).filter fun m => !m.last_viewed.isNone)).2.read ((h.alloc ((h.read src).filter fun m => m.last_viewed.isNone)).2.alloc (((h.alloc ((h.read src).filter fun m => m.last_viewed.isNone)).2.read src).filter fun m => !m.last_viewed.isNone)).1).insertionSort (fun a b => compareDates a.last_viewed b.last_viewed ≤ 0))).read (h.alloc ((h.read src).filter fun m => m.last_viewed.isNone)).1) k).2.1 ((shuffleRandomHV g (((h.alloc ((h.read src).filter fun m => m.last_viewed.isNone)).2.alloc (((h.alloc ((h.read src).filter fun m => m.last_viewed.isNone)).2.read src).filter fun m => !m.last_viewed.isNone)).2.write ((h.alloc ((h.read src).filter fun m => m.last_viewed.isNone)).2.alloc (((h.alloc ((h.read src).filter fun m => m.last_viewed.isNone)).2.read src).filter fun m => !m.last_viewed.isNone)).1 ((((h.alloc ((h.read src).filter fun m => m.last_viewed.isNone)).2.alloc (((h.alloc ((h.read src).filter fun m => m.last_viewed.isNone)).2.read src).filter fun m => !m.last_viewed.isNone)).2.read ((h.alloc ((h.read src).filter fun m => m.last_viewed.isNone)).2.alloc (((h.alloc ((h.read src).filter fun m => m.last_viewed.isNone)).2.read src).filter fun m => !m.last_viewed.isNone)).1).insertionSort (fun a b => compareDates a.last_viewed b.last_viewed ≤ 0))) ((((h.alloc ((h.read src).filter fun m => m.last_viewed.isNone)).2.alloc (((h.alloc ((h.read src).filter fun m => m.last_viewed.isNone)).2.read src).filter fun m => !m.last_viewed.isNone)).2.write ((h.alloc ((h.read src).filter fun m => m.last_viewed.isNone)).2.alloc (((h.alloc ((h.read src).filter fun m => m.last_viewed.isNone)).2.read src).filter fun m => !m.last_viewed.isNone)).1 ((((h.alloc ((h.read src).filter fun m => m.last_viewed.isNone)).2.alloc (((h.alloc ((h.read src).filter fun m => m.last_viewed.isNone)).2.read src).filter fun m => !m.last_viewed.isNone)).2.read ((h.alloc ((h.read src).filter fun m => m.last_viewed.isNone)).2.alloc (((h.alloc ((h.read src).filter fun m => m.last_viewed.isNone)).2.read src).filter fun m => !m.last_viewed.isNone)).1).insertionSort (fun a b => compareDates a.last_viewed b.last_viewed ≤ 0))).read (h.alloc ((h.read src).filter fun m => m.last_viewed.isNone)).1) k).2.1.read (shuffleRandomHV g (((h.alloc ((h.read src).filter fun m => m.last_viewed.isNone)).2.alloc (((h.alloc ((h.read src).filter fun m => m.last_viewed.isNone)).2.read src).filter fun m => !m.last_viewed.isNone)).2.write ((h.alloc ((h.read src).filter fun m => m.last_viewed.isNone)).2.alloc (((h.alloc ((h.read src).filter fun m => m.last_viewed.isNone)).2.read src).filter fun m => !m.last_viewed.isNone)).1 ((((h.alloc ((h.read src).filter fun m => m.last_viewed.isNone)).2.alloc (((h.alloc ((h.read src).filter fun m => m.last_viewed.isNone)).2.read src).filter fun m => !m.last_viewed.isNone)).2.read ((h.alloc ((h.read src).filter fun m => m.last_viewed.isNone)).2.alloc (((h.alloc ((h.read src).filter fun m => m.last_viewed.isNone)).2.read src).filter fun m => !m.last_viewed.isNone)).1).insertionSort (fun a b => compareDates a.last_viewed b.last_viewed ≤ 0))) ((((h.alloc ((h.read src).filter fun m => m.last_viewed.isNone)).2.alloc (((h.alloc ((h.read src).filter fun m => m.last_viewed.isNone)).2.read src).filter fun m => !m.last_viewed.isNone)).2.write ((h.alloc ((h.read src).filter fun m => m.last_viewed.isNone)).2.alloc (((h.alloc ((h.read src).filter fun m => m.last_viewed.isNone)).2.read src).filter fun m => !m.last_viewed.isNone)).1 ((((h.alloc ((h.read src).filter fun m => m.last_viewed.isNone)).2.alloc (((h.alloc ((h.read src).filter fun m => m.last_viewed.isNone)).2.read src).filter fun m => !m.last_viewed.isNone)).2.read ((h.alloc ((h.read src).filter fun m => m.last_viewed.isNone)).2.alloc (((h.alloc ((h.read src).filter fun m => m.last_viewed.isNone)).2.read src).filter fun m => !m.last_viewed.isNone)).1).insertionSort (fun a b => compareDates a.last_viewed b.last_viewed ≤ 0))).read (h.alloc ((h.read src).filter fun m => m.last_viewed.isNone)).1) k).1 ++ (shuffleRandomHV g (((h.alloc ((h.read src).filter fun m => m.last_viewed.isNone)).2.alloc (((h.alloc ((h.read src).filter fun m => m.last_viewed.isNone)).2.read src).filter fun m => !m.last_viewed.isNone)).2.write ((h.alloc ((h.read src).filter fun m => m.last_viewed.isNone)).2.alloc (((h.alloc ((h.read src).filter fun m => m.last_viewed.isNone)).2.read src).filter fun m => !m.last_viewed.isNone)).1 ((((h.alloc ((h.read src).filter fun m => m.last_viewed.isNone)).2.alloc (((h.alloc ((h.read src).filter fun m => m.last_viewed.isNone)).2.read src).filter fun m => !m.last_viewed.isNone)).2.read ((h.alloc ((h.read src).filter fun m => m.last_viewed.isNone)).2.alloc (((h.alloc ((h.read src).filter fun m => m.last_viewed.isNone)).2.read src).filter fun m => !m.last_viewed.isNone)).1).insertionSort (fun a b => compareDates a.last_viewed b.last_viewed ≤ 0))) ((((h.alloc ((h.read src).filter fun m => m.last_viewed.isNone)).2.alloc (((h.alloc ((h.read src).filter fun m => m.last_viewed.isNone)).2.read src).filter fun m => !m.last_viewed.isNone)).2.write ((h.alloc ((h.read src).filter fun m => m.last_viewed.isNone)).2.alloc (((h.alloc ((h.read src).filter fun m => m.last_viewed.isNone)).2.read src).filter fun m => !m.last_viewed.isNone)).1 ((((h.alloc ((h.read src).filter fun m => m.last_viewed.isNone)).2.alloc (((h.alloc ((h.read src).filter fun m => m.last_viewed.isNone)).2.read src).filter fun m => !m.last_viewed.isNone)).2.read ((h.alloc ((h.read src).filter fun m => m.last_viewed.isNone)).2.alloc (((h.alloc ((h.read src).filter fun m => m.last_viewed.isNone)).2.read src).filter fun m => !m.last_viewed.isNone)).1).insertionSort (fun a b => compareDates a.last_viewed b.last_viewed ≤ 0))).read (h.alloc ((h.read src).filter fun m => m.last_viewed.isNone)).1) k).2.1.read ((h.alloc ((h.read src).filter fun m => m.last_viewed.isNone)).2.alloc (((h.alloc ((h.read src).filter fun m => m.last_viewed.isNone)).2.read src).filter fun m => !m.last_viewed.isNone)).1)]
    rw [e_h1_n1read]
    rw [hsnvA.1]
    rw [(shuffleRandomHV_frameOn g (((h.alloc ((h.read src).filter fun m => m.last_viewed.isNone)).2.alloc (((h.alloc ((h.read src).filter fun m => m.last_viewed.isNone)).2.read src).filter fun m => !m.last_viewed.isNone)).2.write ((h.alloc ((h.read src).filter fun m => m.last_viewed.isNone)).2.alloc (((h.alloc ((h.read src).filter fun m => m.last_viewed.isNone)).2.read src).filter fun m => !m.last_viewed.isNone)).1 ((((h.alloc ((h.read src).filter fun m => m.last_viewed.isNone)).2.alloc (((h.alloc ((h.read src).filter fun m => m.last_viewed.isNone)).2.read src).filter fun m => !m.last_viewed.isNone)).2.read ((h.alloc ((h.read src).filter fun m => m.last_viewed.isNone)).2.alloc (((h.alloc ((h.read src).filter fun m => m.last_viewed.isNone)).2.read src).filter fun m => !m.last_viewed.isNone)).1).insertionSort (fun a b => compareDates a.last_viewed b.last_viewed ≤ 0))) ((h.read src).filter fun m => m.last_viewed.isNone) k ((((h.alloc ((h.read src).filter fun m => m.last_viewed.isNone)).2.alloc (((h.alloc ((h.read src).filter fun m => m.last_viewed.isNone)).2.read src).filter fun m => !m.last_viewed.isNone)).2.write ((h.alloc ((h.read src).filter fun m => m.last_viewed.isNone)).2.alloc (((h.alloc ((h.read src).filter fun m => m.last_viewed.isNone)).2.read src).filter fun m => !m.last_viewed.isNone)).1 ((((h.alloc ((h.read src).filter fun m => m.last_viewed.isNone)).2.alloc (((h.alloc ((h.read src).filter fun m => m.last_viewed.isNone)).2.read src).filter fun m => !m.last_viewed.isNone)).2.read ((h.alloc ((h.read src).filter fun m => m.last_viewed.isNone)).2.alloc (((h.alloc ((h.read src).filter fun m => m.last_viewed.isNone)).2.read src).filter fun m => !m.last_viewed.isNone)).1).insertionSort (fun a b => compareDates a.last_viewed b.last_viewed ≤ 0))).cells.length)
      (Nat.le_refl _)).2 ((h.alloc ((h.read src).filter fun m => m.last_viewed.isNone)).2.alloc (((h.alloc ((h.read src).filter fun m => m.last_viewed.isNone)).2.read src).filter fun m => !m.last_viewed.isNone)).1 e_v1ltH1]
    rw [read_write_self ((h.alloc ((h.read src).filter fun m => m.last_viewed.isNone)).2.alloc (((h.alloc ((h.read src).filter fun m => m.last_viewed.isNone)).2.read src).filter fun m => !m.last_viewed.isNone)).2 ((h.alloc ((h.read src).filter fun m => m.last_viewed.isNone)).2.alloc (((h.alloc ((h.read src).filter fun m => m.last_viewed.isNone)).2.read src).filter fun m => !m.last_viewed.isNone)).1 ((((h.alloc ((h.read src).filter fun m => m.last_viewed.isNone)).2.alloc (((h.alloc ((h.read src).filter fun m => m.last_viewed.isNone)).2.read src).filter fun m => !m.last_viewed.isNone)).2.read ((h.alloc ((h.read src).filter fun m => m.last_viewed.isNone)).2.alloc (((h.alloc ((h.read src).filter fun m => m.last_viewed.isNone)).2.read src).filter fun m => !m.last_viewed.isNone)).1).insertionSort (fun a b => compareDates a.last_viewed b.last_viewed ≤ 0)) e_v1lt]
    rw [e_v1read0]
    rw [husrc]
    rfl
  · show (shuffleRandomHV g (((h.alloc ((h.read src).filter fun m => m.last_viewed.isNone)).2.alloc (((h.alloc ((h.read src).filter fun m => m.last_viewed.isNone)).2.read src).filter fun m => !m.last_viewed.isNone)).2.write ((h.alloc ((h.read src).filter fun m => m.last_viewed.isNone)).2.alloc (((h.alloc ((h.read src).filter fun m => m.last_viewed.isNone)).2.read src).filter fun m => !m.last_viewed.isNone)).1 ((((h.alloc ((h.read src).filter fun m => m.last_viewed.isNone)).2.alloc (((h.alloc ((h.read src).filter fun m => m.last_viewed.isNone)).2.read src).filter fun m => !m.last_viewed.isNone)).2.read ((h.alloc ((h.read src).filter fun m => m.last_viewed.isNone)).2.alloc (((h.alloc ((h.read src).filter fun m => m.last_viewed.isNone)).2.read src).filter fun m => !m.last_viewed.isNone)).1).insertionSort (fun a b => compareDates a.last_viewed b.last_viewed ≤ 0))) ((((h.alloc ((h.read src).filter fun m => m.last_viewed.isNone)).2.alloc (((h.alloc ((h.read src).filter fun m => m.last_viewed.isNone)).2.read src).filter fun m => !m.last_viewed.isNone)).2.write ((h.alloc ((h.read src).filter fun m => m.last_viewed.isNone)).2.alloc (((h.alloc ((h.read src).filter fun m => m.last_viewed.isNone)).2.read src).filter fun m => !m.last_viewed.isNone)).1 ((((h.alloc ((h.read src).filter fun m => m.last_viewed.isNone)).2.alloc (((h.alloc ((h.read src).filter fun m => m.last_viewed.isNone)).2.read src).filter fun m => !m.last_viewed.isNone)).2.read ((h.alloc ((h.read src).filter fun m => m.last_viewed.isNone)).2.alloc (((h.alloc ((h.read src).filter fun m => m.last_viewed.isNone)).2.read src).filter fun m => !m.last_viewed.isNone)).1).insertionSort (fun a b => compareDates a.last_viewed b.last_viewed ≤ 0))).read (h.alloc ((h.read src).filter fun m => m.last_viewed.isNone)).1) k).2.2 = (prioritizeOldestFirst g k (h.read src)).2
    rw [e_h1_n1read]
    rw [hsnvA.2.1]
    rfl

/-- A successful heap-level `sortWithTieBreaker` computes exactly what the
pure `sortWithTieBreaker` returns on the source cell's contents. -/
theorem sortWithTieBreakerH_ok_agree (g : Nat → Nat)
    (pCmp sCmp : MediaFile → MediaFile → Int) (h : Heap) (src k : Nat)
    (res : Nat × Heap × Nat)
    (hres : sortWithTieBreakerH g pCmp sCmp h src k = Except.ok res) :
    sortWithTieBreaker g pCmp sCmp k (h.read src)
      = Except.ok (res.2.1.read res.1, res.2.2) := by
  obtain ⟨v, hv⟩ := deadGroups_ok pCmp (h.read src)
  unfold sortWithTieBreakerH at hres
  rw [hv] at hres
  cases hres
  rw [sortWithTieBreaker_eq]
  have e_s1lt : (h.alloc (h.read src)).1 < (h.alloc (h.read src)).2.cells.length := by
    rw [alloc_length]
    exact Nat.lt_succ_of_le (Nat.le_refl _)
  have e_s1read : (h.alloc (h.read src)).2.read (h.alloc (h.read src)).1 = h.read src := read_alloc_self h (h.read src)
  have e_hwread : ((h.alloc (h.read src)).2.write (h.alloc (h.read src)).1 (((h.alloc (h.read src)).2.read (h.alloc (h.read src)).1).insertionSort (fun a b => tieCmp pCmp sCmp a b ≤ 0))).read (h.alloc (h.read src)).1 = (((h.alloc (h.read src)).2.read (h.alloc (h.read src)).1).insertionSort (fun a b => tieCmp pCmp sCmp a b ≤ 0)) :=
    read_write_self (h.alloc (h.read src)).2 (h.alloc (h.read src)).1 (((h.alloc (h.read src)).2.read (h.alloc (h.read src)).1).insertionSort (fun a b => tieCmp pCmp sCmp a b ≤ 0)) e_s1lt
  have e_rreslt : (((h.alloc (h.read src)).2.write (h.alloc (h.read src)).1 (((h.alloc (h.read src)).2.read (h.alloc (h.read src)).1).insertionSort (fun a b => tieCmp pCmp sCmp a b ≤ 0))).alloc []).1 < (((h.alloc (h.read src)).2.write (h.alloc (h.read src)).1 (((h.alloc (h.read src)).2.read (h.alloc (h.read src)).1).insertionSort (fun a b => tieCmp pCmp sCmp a b ≤ 0))).alloc []).2.cells.length := by
    rw [alloc_length]
    exact Nat.lt_succ_of_le (Nat.le_refl _)
  have e_rresread : (((h.alloc (h.read src)).2.write (h.alloc (h.read src)).1 (((h.alloc (h.read src)).2.read (h.alloc (h.read src)).1).insertionSort (fun a b => tieCmp pCmp sCmp a b ≤ 0))).alloc []).2.read (((h.alloc (h.read src)).2.write (h.alloc (h.read src)).1 (((h.alloc (h.read src)).2.read (h.alloc (h.read src)).1).insertionSort (fun a b => tieCmp pCmp sCmp a b ≤ 0))).alloc []).1 = [] := read_alloc_self ((h.alloc (h.read src)).2.write (h.alloc (h.read src)).1 (((h.alloc (h.read src)).2.read (h.alloc (h.read src)).1).insertionSort (fun a b => tieCmp pCmp sCmp a b ≤ 0))) []
  have hfold := foldShuffle_agree g (((h.alloc (h.read src)).2.write (h.alloc (h.read src)).1 (((h.alloc (h.read src)).2.read (h.alloc (h.read src)).1).insertionSort (fun a b => tieCmp pCmp sCmp a b ≤ 0))).alloc []).1 ((((h.alloc (h.read src)).2.write (h.alloc (h.read src)).1 (((h.alloc (h.read src)).2.read (h.alloc (h.read src)).1).insertionSort (fun a b => tieCmp pCmp sCmp a b ≤ 0))).read (h.alloc (h.read src)).1).foldl (fun m media => insertGroup m (finalKey media) media) []) (((h.alloc (h.read src)).2.write (h.alloc (h.read src)).1 (((h.alloc (h.read src)).2.read (h.alloc (h.read src)).1).insertionSort (fun a b => tieCmp pCmp sCmp a b ≤ 0))).alloc []).2 k e_rreslt
  refine congrArg Except.ok (Prod.ext ?_ ?_)
  · show _ = (((((h.alloc (h.read src)).2.write (h.alloc (h.read src)).1 (((h.alloc (h.read src)).2.read (h.alloc (h.read src)).1).insertionSort (fun a b => tieCmp pCmp sCmp a b ≤ 0))).read (h.alloc (h.read src)).1).foldl (fun m media => insertGroup m (finalKey media) media) []).foldl
    (fun (st : Heap × Nat) kv =>
      let sh := shuffleRandomHV g st.1 kv.2 st.2
      (sh.2.1.write (((h.alloc (h.read src)).2.write (h.alloc (h.read src)).1 (((h.alloc (h.read src)).2.read (h.alloc (h.read src)).1).insertionSort (fun a b => tieCmp pCmp sCmp a b ≤ 0))).alloc []).1 (sh.2.1.read (((h.alloc (h.read src)).2.write (h.alloc (h.read src)).1 (((h.alloc (h.read src)).2.read (h.alloc (h.read src)).1).insertionSort (fun a b => tieCmp pCmp sCmp a b ≤ 0))).alloc []).1 ++ sh.2.1.read sh.1), sh.2.2))
    ((((h.alloc (h.read src)).2.write (h.alloc (h.read src)).1 (((h.alloc (h.read src)).2.read (h.alloc (h.read src)).1).insertionSort (fun a b => tieCmp pCmp sCmp a b ≤ 0))).alloc []).2, k)).1.read (((h.alloc (h.read src)).2.write (h.alloc (h.read src)).1 (((h.alloc (h.read src)).2.read (h.alloc (h.read src)).1).insertionSort (fun a b => tieCmp pCmp sCmp a b ≤ 0))).alloc []).1
    rw [hfold.1]
    rw [e_rresread]
    rw [e_hwread]
    rw [e_s1read]
    rfl
  · show _ = (((((h.alloc (h.read src)).2.write (h.alloc (h.read src)).1 (((h.alloc (h.read src)).2.read (h.alloc (h.read src)).1).insertionSort (fun a b => tieCmp pCmp sCmp a b ≤ 0))).read (h.alloc (h.read src)).1).foldl (fun m media => insertGroup m (finalKey media) media) []).foldl
    (fun (st : Heap × Nat) kv =>
      let sh := shuffleRandomHV g st.1 kv.2 st.2
      (sh.2.1.write (((h.alloc (h.read src)).2.write (h.alloc (h.read src)).1 (((h.alloc (h.read src)).2.read (h.alloc (h.read src)).1).insertionSort (fun a b => tieCmp pCmp sCmp a b ≤ 0))).alloc []).1 (sh.2.1.read (((h.alloc (h.read src)).2.write (h.alloc (h.read src)).1 (((h.alloc (h.read src)).2.read (h.alloc (h.read src)).1).insertionSort (fun a b => tieCmp pCmp sCmp a b ≤ 0))).alloc []).1 ++ sh.2.1.read sh.1), sh.2.2))
    ((((h.alloc (h.read src)).2.write (h.alloc (h.read src)).1 (((h.alloc (h.read src)).2.read (h.alloc (h.read src)).1).insertionSort (fun a b => tieCmp pCmp sCmp a b ≤ 0))).alloc []).2, k)).2
    rw [hfold.2.1]
    rw [e_rresread]
    rw [e_hwread]
    rw [e_s1read]
    rfl

/-- A successful heap-level dispatch computes exactly the pure dispatch on
the source cell's contents. -/
theorem applyAlgorithmH_ok_agree (g : Nat → Nat) (alg : String) (h : Heap)
    (src k : Nat) (hsrc : src < h.cells.length) (res : Nat × Heap × Nat)
    (hres : applyAlgorithmH g alg h src k = Except.ok res) :
    applyAlgorithm g k alg (h.read src)
      = Except.ok (res.2.1.read res.1, res.2.2) := by
  unfold applyAlgorithmH at hres
  unfold applyAlgorithm
  split_ifs at hres ⊢
  · cases hres
    have hag := shuffleRandomHV_agree g h (h.read src) k
    exact congrArg Except.ok (Prod.ext hag.1.symm hag.2.1.symm)
  · cases hres
    have hag := prioritizeUnviewedH_agree g h src k hsrc
    exact congrArg Except.ok (Prod.ext hag.1.symm hag.2.symm)
  · exact sortWithTieBreakerH_ok_agree g _ _ h src k res hres
  · exact sortWithTieBreakerH_ok_agree g _ _ h src k res hres
  · exact sortWithTieBreakerH_ok_agree g _ _ h src k res hres
  · cases hres
    have hag := prioritizeOldestFirstH_agree g h src k hsrc
    exact congrArg Except.ok (Prod.ext hag.1.symm hag.2.symm)

/-- A failing heap-level dispatch fails identically in the pure model. -/
theorem applyAlgorithmH_error_agree (g : Nat → Nat) (alg : String) (h : Heap)
    (src k : Nat) (e : String)
    (hres : applyAlgorithmH g alg h src k = Except.error e) :
    applyAlgorithm g k alg (h.read src) = Except.error e := by
  unfold applyAlgorithmH at hres
  unfold applyAlgorithm
  split_ifs at hres ⊢
  · obtain ⟨v, hv⟩ := deadGroups_ok (fun a b => a.view_count - b.view_count)
      (h.read src)
    unfold sortWithTieBreakerH at hres
    rw [hv] at hres
    cases hres
  · obtain ⟨v, hv⟩ := deadGroups_ok (fun a b => b.like_count - a.like_count)
      (h.read src)
    unfold sortWithTieBreakerH at hres
    rw [hv] at hres
    cases hres
  · obtain ⟨v, hv⟩ := deadGroups_ok (fun a b => b.view_count - a.view_count)
      (h.read src)
    unfold sortWithTieBreakerH at hres
    rw [hv] at hres
    cases hres
  · cases hres
    rfl


/-- `randomizeH` preserves every cell of the caller's heap. -/
theorem randomizeH_frameOn (g : Nat → Nat) (k : Nat) (h : Heap)
    (inputRef : Nat) (alg : String) (ex : Bool) :
    heapFrameOn h (randomizeH g k h inputRef alg ex).2 h.cells.length := by
  show heapFrameOn h
    (if ((filterDisliked ex (h.read inputRef))).length = 0 then (Except.ok [], (h.alloc (filterDisliked ex (h.read inputRef))).2)
     else
       match applyAlgorithmH g alg (h.alloc (filterDisliked ex (h.read inputRef))).2 (h.alloc (filterDisliked ex (h.read inputRef))).1 k with
       | Except.error e => (Except.error e, (h.alloc (filterDisliked ex (h.read inputRef))).2)
       | Except.ok res =>
         (Except.ok (toRanked (res.2.1.read res.1) 0), res.2.1)).2
    h.cells.length
  by_cases hlen : ((filterDisliked ex (h.read inputRef))).length = 0
  · rw [if_pos hlen]
    exact alloc_frameOn h (filterDisliked ex (h.read inputRef)) h.cells.length (Nat.le_refl _)
  · rw [if_neg hlen]
    cases happ : applyAlgorithmH g alg (h.alloc (filterDisliked ex (h.read inputRef))).2 (h.alloc (filterDisliked ex (h.read inputRef))).1 k with
    | error e =>
      exact alloc_frameOn h (filterDisliked ex (h.read inputRef)) h.cells.length (Nat.le_refl _)
    | ok res =>
      exact heapFrameOn_trans
        (alloc_frameOn h (filterDisliked ex (h.read inputRef)) h.cells.length (Nat.le_refl _))
        (applyAlgorithmH_frameOn g alg (h.alloc (filterDisliked ex (h.read inputRef))).2 (h.alloc (filterDisliked ex (h.read inputRef))).1 k h.cells.length
          (alloc_frameOn h (filterDisliked ex (h.read inputRef)) h.cells.length (Nat.le_refl _)).1 res happ)

/-- The heap-level `randomize` returns exactly what the pure `randomize`
returns on the input cell's contents. -/
theorem randomizeH_agree (g : Nat → Nat) (k : Nat) (h : Heap)
    (inputRef : Nat) (alg : String) (ex : Bool) :
    (randomizeH g k h inputRef alg ex).1
      = randomize g k (h.read inputRef) alg ex := by
  show (if ((filterDisliked ex (h.read inputRef))).length = 0 then (Except.ok [], (h.alloc (filterDisliked ex (h.read inputRef))).2)
     else
       match applyAlgorithmH g alg (h.alloc (filterDisliked ex (h.read inputRef))).2 (h.alloc (filterDisliked ex (h.read inputRef))).1 k with
       | Except.error e => (Except.error e, (h.alloc (filterDisliked ex (h.read inputRef))).2)
       | Except.ok res =>
         (Except.ok (toRanked (res.2.1.read res.1) 0), res.2.1)).1
    = randomize g k (h.read inputRef) alg ex
  have e_fread : (h.alloc (filterDisliked ex (h.read inputRef))).2.read (h.alloc (filterDisliked ex (h.read inputRef))).1 = (filterDisliked ex (h.read inputRef)) := read_alloc_self h (filterDisliked ex (h.read inputRef))
  have e_flt : (h.alloc (filterDisliked ex (h.read inputRef))).1 < (h.alloc (filterDisliked ex (h.read inputRef))).2.cells.length := by
    rw [alloc_length]
    exact Nat.lt_succ_of_le (Nat.le_refl _)
  by_cases hlen : ((filterDisliked ex (h.read inputRef))).length = 0
  · rw [if_pos hlen]
    rw [randomize_of_filter_nil g k (h.read inputRef) alg ex
      (List.length_eq_zero.mp hlen)]
  · rw [if_neg hlen]
    rw [randomize_of_filter_ne_nil g k (h.read inputRef) alg ex
      (fun hc => hlen (by rw [hc]; rfl))]
    cases happ : applyAlgorithmH g alg (h.alloc (filterDisliked ex (h.read inputRef))).2 (h.alloc (filterDisliked ex (h.read inputRef))).1 k with
    | error e =>
      have hag := applyAlgorithmH_error_agree g alg (h.alloc (filterDisliked ex (h.read inputRef))).2 (h.alloc (filterDisliked ex (h.read inputRef))).1 k e happ
      rw [e_fread] at hag
      rw [hag]
      rfl
    | ok res =>
      have hag := applyAlgorithmH_ok_agree g alg (h.alloc (filterDisliked ex (h.read inputRef))).2 (h.alloc (filterDisliked ex (h.read inputRef))).1 k e_flt res happ
      rw [e_fread] at hag
      rw [hag]
      rfl

/-- C8: `randomize` never mutates its inputs.  In the heap-level embedding
(arrays as store cells, the source's in-place swap/sort/push as writes),
every pre-existing cell — in particular the caller's input array with all
its records' fields — is unchanged after the call, whether it returns or
throws, and the returned value is exactly the pure function of the input
cell's contents. -/
theorem C8_no_input_mutation (g : Nat → Nat) (k : Nat) (h : Heap)
    (inputRef : Nat) (alg : String) (ex : Bool)
    (hsrc : inputRef < h.cells.length) :
    ((randomizeH g k h inputRef alg ex).2).read inputRef = h.read inputRef ∧
    (∀ q, q < h.cells.length →
      ((randomizeH g k h inputRef alg ex).2).read q = h.read q) ∧
    (randomizeH g k h inputRef alg ex).1
      = randomize g k (h.read inputRef) alg ex := by
  have hf := randomizeH_frameOn g k h inputRef alg ex
  exact ⟨hf.2 inputRef hsrc, hf.2,
    randomizeH_agree g k h inputRef alg ex⟩

/-- Witness for C8 at a concrete two-cell heap. -/
theorem C8_no_input_mutation_witness :
    0 < (Heap.mk [[⟨1, 2, some "2024-04-04", 0⟩, ⟨2, 0, none, -1⟩], []]).cells.length ∧
    (((randomizeH (fun _ => 0) 0
        (Heap.mk [[⟨1, 2, some "2024-04-04", 0⟩, ⟨2, 0, none, -1⟩], []])
        0 "least_viewed" true).2).read 0
      = (Heap.mk [[⟨1, 2, some "2024-04-04", 0⟩, ⟨2, 0, none, -1⟩], []]).read 0 ∧
    (∀ q, q < (Heap.mk [[⟨1, 2, some "2024-04-04", 0⟩, ⟨2, 0, none, -1⟩], []]).cells.length →
      (((randomizeH (fun _ => 0) 0
          (Heap.mk [[⟨1, 2, some "2024-04-04", 0⟩, ⟨2, 0, none, -1⟩], []])
          0 "least_viewed" true).2).read q
        = (Heap.mk [[⟨1, 2, some "2024-04-04", 0⟩, ⟨2, 0, none, -1⟩], []]).read q)) ∧
    (randomizeH (fun _ => 0) 0
        (Heap.mk [[⟨1, 2, some "2024-04-04", 0⟩, ⟨2, 0, none, -1⟩], []])
        0 "least_viewed" true).1
      = randomize (fun _ => 0) 0
          ((Heap.mk [[⟨1, 2, some "2024-04-04", 0⟩, ⟨2, 0, none, -1⟩], []]).read 0)
          "least_viewed" true) :=
  ⟨by decide,
   C8_no_input_mutation (fun _ => 0) 0
     (Heap.mk [[⟨1, 2, some "2024-04-04", 0⟩, ⟨2, 0, none, -1⟩], []])
     0 "least_viewed" true (by decide)⟩
